import Mathlib

/- Verification development for the hukum_ai traffic-law RAG backend
   (hukum_ai/backend: main.py, build_index.py, search_index.py,
   train_intent_model.py and friends).

   Embedding conventions: floating-point vector components, clock values
   and TTLs are modelled as exact rationals; floating-point similarity
   scores (which involve a square root) as real numbers; Python
   exceptions as Except values; Python dict state (caches, rate-limiter
   table) as insertion-ordered association lists; the external Gemini
   provider (embedding and generation calls) as explicit function
   parameters; content-hash cache keys (sha256 of a canonical
   serialisation) as the serialised content itself, which is injective
   up to hash collisions. -/

namespace HukumAI

/-- Characters counted as word characters by the Python regex class \w
(ASCII approximation, sufficient for the rule tables of the source). -/
def is_word_char (c : Char) : Bool :=
  c.isAlphanum || c == '_'

/-- Splitter on a character class, accumulating the current piece
reversed; used to model str.split and str.splitlines structurally. -/
def split_on_pred (p : Char → Bool) (cur : List Char) : List Char → List (List Char)
  | [] => [cur.reverse]
  | c :: rest =>
    if p c then cur.reverse :: split_on_pred p [] rest
    else split_on_pred p (c :: cur) rest

/-- Model of Python str.split() with no arguments: split on whitespace
and drop empty pieces. -/
def split_ws (s : String) : List String :=
  ((split_on_pred Char.isWhitespace [] s.data).filter (fun t => t ≠ [])).map String.mk

/-- Model of str.splitlines as used on texts whose line breaks are
newline characters (equivalently str.split on a newline). -/
def split_newlines (s : String) : List String :=
  (split_on_pred (fun c => c == '\n') [] s.data).map String.mk

/-- Model of str.strip: drop leading and trailing whitespace. -/
def trim_str (s : String) : String :=
  String.mk (((s.data.dropWhile Char.isWhitespace).reverse.dropWhile Char.isWhitespace).reverse)

/-- Model of str.lower (ASCII, sufficient for the texts involved). -/
def lower_str (s : String) : String :=
  String.mk (s.data.map Char.toLower)

/-- Model of str.startswith. -/
def starts_with_str (s p : String) : Bool :=
  p.data.isPrefixOf s.data

/-- Embedding of main.py _norm: strip, lowercase, and collapse whitespace
runs to single spaces (on a stripped string the whitespace-collapsing
substitution equals joining the whitespace-split tokens with single
spaces). -/
def norm_text (s : String) : String :=
  String.intercalate " " (split_ws (lower_str (trim_str s)))

/-- Boolean infix test on character lists. -/
def is_infix_chars (needle : List Char) : List Char → Bool
  | [] => needle.isEmpty
  | c :: rest => needle.isPrefixOf (c :: rest) || is_infix_chars needle rest

/-- Embedding of the Python substring test (the in operator on strings). -/
def contains_sub (hay pat : String) : Bool :=
  is_infix_chars pat.toList hay.toList

/-- Word-boundary test for the character preceding (or following) a
candidate match position; none stands for the start or end of the
string. -/
def bound_ok : Option Char → Bool
  | none => true
  | some c => !is_word_char c

/-- Tests whether needle occurs at the head of hay with a word boundary
immediately after it. -/
def starts_word (needle hay : List Char) : Bool :=
  needle.isPrefixOf hay && bound_ok (hay.drop needle.length).head?

/-- Scans hay for a word-boundary-delimited occurrence of needle,
tracking the previous character to decide the left boundary; this embeds
re.search for a pattern consisting of a word enclosed in two word-boundary
anchors. -/
def word_search_aux (needle : List Char) : Option Char → List Char → Bool
  | prev, [] => bound_ok prev && needle.isEmpty
  | prev, c :: rest =>
    (bound_ok prev && starts_word needle (c :: rest)) ||
      word_search_aux needle (some c) rest

/-- Word-boundary-delimited substring search over strings. -/
def word_search (hay pat : String) : Bool :=
  word_search_aux pat.toList none hay.toList

/-- Model of Python str.rstrip restricted to whitespace. -/
def rstrip (s : String) : String :=
  String.mk (s.toList.reverse.dropWhile Char.isWhitespace).reverse

/-- Index of the last space in a character list, as an integer, with -1
when there is none; embeds Python str.rfind applied to a single space. -/
def last_space_idx : List Char → ℤ
  | [] => -1
  | c :: rest =>
    let r := last_space_idx rest
    if 0 ≤ r then r + 1
    else if c = ' ' then 0 else -1

/-- Embedding of main.py _shorten: strip, and when the text exceeds the
budget, cut at the budget, back up to the last space when that space sits
beyond position 80, strip trailing whitespace and append an ellipsis. -/
def shorten (s : String) (n : ℕ) : String :=
  let t := trim_str s
  if t.toList.length ≤ n then t
  else
    let cut := t.toList.take n
    let cut := if last_space_idx cut > 80 then cut.take (last_space_idx cut).toNat else cut
    rstrip (String.mk cut) ++ "..."

/-- Accumulated dot product and squared norms of two vectors, following
the zip loop shared by both cosine implementations; the zip truncates to
the shorter vector. -/
def dot_norms : List ℚ → List ℚ → ℚ × ℚ × ℚ
  | a :: v1, b :: v2 =>
    let r := dot_norms v1 v2
    (a * b + r.1, a * a + r.2.1, b * b + r.2.2)
  | _, _ => (0, 0, 0)

/-- Embedding of cosine_similarity from main.py: zero for empty or
length-mismatched inputs and for zero-norm inputs, otherwise the dot
product over the product of the Euclidean norms. -/
noncomputable def cosine_similarity (v1 v2 : List ℚ) : ℝ :=
  if v1.isEmpty || v2.isEmpty || v1.length != v2.length then 0
  else
    let r := dot_norms v1 v2
    if r.2.1 == 0 || r.2.2 == 0 then 0
    else (r.1 : ℝ) / (Real.sqrt (r.2.1 : ℝ) * Real.sqrt (r.2.2 : ℝ))

namespace SearchIndex

/-- Embedding of cosine_similarity from search_index.py: no emptiness or
length guard (the zip silently truncates to the shorter vector), zero for
zero-norm inputs. -/
noncomputable def cosine_similarity (v1 v2 : List ℚ) : ℝ :=
  let r := dot_norms v1 v2
  if r.2.1 == 0 || r.2.2 == 0 then 0
  else (r.1 : ℝ) / (Real.sqrt (r.2.1 : ℝ) * Real.sqrt (r.2.2 : ℝ))

end SearchIndex

/-- Sum of squared components, the common value of the three accumulators
when a vector is zipped with itself. -/
def sq_sum : List ℚ → ℚ
  | [] => 0
  | a :: v => a * a + sq_sum v

/-- Insertion-ordered association-list lookup, modelling dict.get. -/
def dict_get {κ α : Type} [DecidableEq κ] (k : κ) : List (κ × α) → Option α
  | [] => none
  | (k', v) :: rest => if k' = k then some v else dict_get k rest

/-- Removal of the first binding of a key, modelling dict.pop. -/
def dict_pop {κ α : Type} [DecidableEq κ] (k : κ) : List (κ × α) → List (κ × α)
  | [] => []
  | (k', v) :: rest => if k' = k then rest else (k', v) :: dict_pop k rest

/-- Assignment, modelling dict item assignment: an existing key keeps its
position in the insertion order, a new key is appended at the end. -/
def dict_assign {κ α : Type} [DecidableEq κ] (k : κ) (v : α) :
    List (κ × α) → List (κ × α)
  | [] => [(k, v)]
  | (k', v') :: rest => if k' = k then (k', v) :: rest else (k', v') :: dict_assign k v rest

/-- Scan for the key with the strictly smallest expiry, following the
eviction loop of TTLCache.set: the first key attaining the minimum wins. -/
def oldest_key_aux {κ α : Type} (acc : Option (κ × ℚ)) : List (κ × ℚ × α) → Option (κ × ℚ)
  | [] => acc
  | (k, exp, _) :: rest =>
    match acc with
    | none => oldest_key_aux (some (k, exp)) rest
    | some (k0, e0) =>
      if exp < e0 then oldest_key_aux (some (k, exp)) rest
      else oldest_key_aux (some (k0, e0)) rest

/-- Embedding of the TTLCache class of main.py: a TTL, a capacity bound
and an insertion-ordered map from keys to (expiry, value) pairs. -/
structure TTLCache (κ α : Type) where
  ttl : ℚ
  max_items : ℕ
  data : List (κ × ℚ × α)

/-- Embedding of TTLCache.get: a missing key is a miss, an entry whose
expiry lies strictly in the past is popped and reported as a miss, and
any other entry is returned unchanged. -/
def TTLCache.get {κ α : Type} [DecidableEq κ] (c : TTLCache κ α) (now : ℚ) (key : κ) :
    Option α × TTLCache κ α :=
  match dict_get key c.data with
  | none => (none, c)
  | some (exp, val) =>
    if exp < now then (none, { c with data := dict_pop key c.data })
    else (some val, c)

/-- Embedding of TTLCache.set: when the store is at or above capacity the
entry with the smallest expiry is popped first, then the key is assigned
the value with expiry now + ttl. -/
def TTLCache.set {κ α : Type} [DecidableEq κ] (c : TTLCache κ α) (now : ℚ) (key : κ)
    (val : α) : TTLCache κ α :=
  let d :=
    if c.max_items ≤ c.data.length then
      match oldest_key_aux none c.data with
      | none => c.data
      | some (k0, _) => dict_pop k0 c.data
    else c.data
  { c with data := dict_assign key (now + c.ttl, val) d }

/-- Embedding of _rate_limit_ok for a single client key: the stored pair
is the window start and the accepted count; st none models a missing
RATE_STATE entry, for which the source defaults to (now, 0).  Returns
the decision together with the state written back. -/
def rate_limit_step (max_per_minute : ℕ) (st : Option (ℚ × ℕ)) (now : ℚ) :
    Bool × ℚ × ℕ :=
  let p := st.getD (now, 0)
  if 60 ≤ now - p.1 then (true, now, 1)
  else if max_per_minute ≤ p.2 then (false, p.1, p.2)
  else (true, p.1, p.2 + 1)

/-- Folds the rate limiter over a list of request times for one client,
returning each request time paired with whether it was accepted. -/
def rate_limit_run (max_per_minute : ℕ) : Option (ℚ × ℕ) → List ℚ → List (ℚ × Bool)
  | _, [] => []
  | st, t :: ts =>
    let r := rate_limit_step max_per_minute st t
    (t, r.1) :: rate_limit_run max_per_minute (some r.2) ts

/-- Persisted index entry as written by build_index.py and
rebuild_index_from_db: id, judul (title), isi (body) and embedding. -/
structure Doc where
  id : String
  judul : String
  isi : String
  embedding : List ℚ
deriving DecidableEq

/-- Retrieved document together with its score, modelling the copied dict
dd carrying the extra score entry produced by search_top_k. -/
structure ScoredDoc where
  doc : Doc
  score : ℝ

/-- Descending comparison on (score, document) pairs used to model the
Python stable sort with key score and reverse order. -/
def score_ge (x y : ℝ × Doc) : Prop := y.1 ≤ x.1

noncomputable instance : DecidableRel score_ge :=
  fun x y => inferInstanceAs (Decidable (y.1 ≤ x.1))

instance : IsTotal (ℝ × Doc) score_ge := ⟨fun x y => le_total y.1 x.1⟩

instance : IsTrans (ℝ × Doc) score_ge := ⟨fun _ _ _ h1 h2 => le_trans h2 h1⟩

/-- Scoring pass of search_top_k: every index document is paired with its
cosine similarity against the query embedding. -/
noncomputable def score_all (index : List Doc) (query_embedding : List ℚ) :
    List (ℝ × Doc) :=
  index.map (fun doc => (cosine_similarity query_embedding doc.embedding, doc))

/-- Output pass of search_top_k: keeps, in order, the already-truncated
candidates whose score reaches min_score, packaging each as a scored
document. -/
noncomputable def threshold_filter (min_score : ℝ) : List (ℝ × Doc) → List ScoredDoc
  | [] => []
  | sd :: rest =>
    if min_score ≤ sd.1 then ⟨sd.2, sd.1⟩ :: threshold_filter min_score rest
    else threshold_filter min_score rest

/-- Type of the DOCS_CACHE retrieval-result cache; the sha256 of the JSON
dump of the first 32 query-embedding components is modelled by that
prefix itself. -/
abbrev DocsCache := TTLCache (List ℚ) (List ScoredDoc)

/-- Embedding of search_top_k from main.py, with the DOCS_CACHE state and
the current time passed explicitly: empty result for an empty index or an
empty query embedding; otherwise a cache lookup keyed by the
query-embedding prefix, and on a miss the scoring pass, a stable
descending sort, truncation to the top max(k, 1) and the min_score
filter, with the result stored back in the cache. -/
noncomputable def search_top_k (index : List Doc) (cache : DocsCache) (now : ℚ)
    (query_embedding : List ℚ) (k : ℤ) (min_score : ℝ) :
    List ScoredDoc × DocsCache :=
  if index.isEmpty || query_embedding.isEmpty then ([], cache)
  else
    let key := query_embedding.take 32
    match TTLCache.get cache now key with
    | (some cached, cache') => (cached, cache')
    | (none, cache') =>
      let sorted := List.insertionSort score_ge (score_all index query_embedding)
      let out := threshold_filter min_score (sorted.take (max k 1).toNat)
      (out, TTLCache.set cache' now key out)

/-- Non-increasing score order on retrieved documents. -/
def sorted_desc (l : List ScoredDoc) : Prop :=
  List.Sorted (fun a b : ScoredDoc => b.score ≤ a.score) l

/-- Fixture document with a one-component embedding. -/
def doc1 : Doc :=
  ⟨"1", "UU 22/2009 - Pasal 291: helm", "Setiap pengendara wajib memakai helm", [1]⟩

/-- Fresh retrieval cache with the DOCS_CACHE configuration of main.py
(TTL 900 seconds, capacity 3000). -/
def fresh_docs_cache : DocsCache := ⟨900, 3000, []⟩

/-- Fixed legal-reference trigger phrases of predict_intent. -/
def hukum_keywords : List String :=
  ["pasal", "undang-undang", "uu ", "uu no", "uu nomor", "denda", "sanksi",
    "pidana", "ayat", "tilang", "etle"]

/-- Embedding of predict_intent from main.py.  The optional trained model
is a function from the raw question to an optional label, none standing
for a runtime failure, which the source converts to the default label;
classification is total, so it never raises. -/
def predict_intent (model : Option (String → Option String)) (question : String) : String :=
  let q := norm_text question
  if hukum_keywords.any (fun k => contains_sub q k) then "butuh_pasal"
  else
    match model with
    | none => "tips_umum"
    | some f =>
      match f question with
      | some lbl => lbl
      | none => "tips_umum"

/-- Splits a lowercased character list into maximal alphanumeric runs. -/
def alnum_runs_aux (cur : List Char) : List Char → List (List Char)
  | [] => if cur.isEmpty then [] else [cur.reverse]
  | c :: rest =>
    if c.isAlphanum then alnum_runs_aux (c :: cur) rest
    else if cur.isEmpty then alnum_runs_aux [] rest
    else cur.reverse :: alnum_runs_aux [] rest

/-- Modelled from the spec: the tokenisation it prescribes for indexing
and nearest-example matching (lowercase, keep alphanumeric runs of length
greater than 2); this stage has no counterpart in the source. -/
def spec_tokenize (s : String) : List String :=
  ((alnum_runs_aux [] (lower_str s).toList).filter (fun t => 2 < t.length)).map String.mk

/-- Modelled from the spec: token-set overlap of a question against one
stored training example, divided by the question token count. -/
def spec_overlap_score (q ex : String) : ℚ :=
  let qt := (spec_tokenize q).dedup
  let et := (spec_tokenize ex).dedup
  if qt.length = 0 then 0
  else ((qt.filter (fun t => t ∈ et)).length : ℚ) / (qt.length : ℚ)

/-- Modelled from the spec: picks the training example with the highest
overlap score, the first one winning ties. -/
def spec_best_aux (q : String) (acc : Option ((String × String) × ℚ)) :
    List (String × String) → Option ((String × String) × ℚ)
  | [] => acc
  | e :: rest =>
    let sc := spec_overlap_score q e.1
    match acc with
    | none => spec_best_aux q (some (e, sc)) rest
    | some (e0, s0) =>
      if s0 < sc then spec_best_aux q (some (e, sc)) rest
      else spec_best_aux q (some (e0, s0)) rest

/-- Modelled from the spec: the full intent precedence it describes —
rule layer, then trained classifier, then nearest-example lexical match
accepted at or above the similarity threshold, then the default label
(written tips_umum here to match the label space of the source).  The
nearest-example stage is absent from the source; this definition exists
to compare the claim against predict_intent. -/
def predict_intent_spec (model : Option (String → Option String))
    (examples : List (String × String)) (threshold : ℚ) (question : String) : String :=
  let q := norm_text question
  if hukum_keywords.any (fun k => contains_sub q k) then "butuh_pasal"
  else
    let nearest : Option String :=
      match spec_best_aux question none examples with
      | some (e, sc) => if threshold ≤ sc then some e.2 else none
      | none => none
    match model with
    | some f =>
      match f question with
      | some lbl => lbl
      | none => nearest.getD "tips_umum"
    | none => nearest.getD "tips_umum"

/-- Boolean suffix test on strings. -/
def ends_with (s suffix : String) : Bool :=
  suffix.toList.reverse.isPrefixOf s.toList.reverse

/-- Embedding of _is_quota_error: substring classification of the
lowercased exception text. -/
def is_quota_error (e : String) : Bool :=
  contains_sub (lower_str e) "resource_exhausted" || contains_sub (lower_str e) "429" ||
    contains_sub (lower_str e) "quota" || contains_sub (lower_str e) "rate"

/-- Embedding of _is_not_found_model_error. -/
def is_not_found_model_error (e : String) : Bool :=
  contains_sub (lower_str e) "not_found" || contains_sub (lower_str e) "is not found" ||
    contains_sub (lower_str e) "call listmodels"

/-- Embedding of _model_candidates: the stripped model name followed by
its -latest variant unless it already ends with -latest; a blank name
yields no candidates. -/
def model_candidates (model : String) : List String :=
  let m := trim_str model
  if m = "" then []
  else if ends_with m "-latest" then [m]
  else [m, m ++ "-latest"]

/-- Inner candidate loop of generate_answer over the variants of one base
model.  The provider is a function from the model name to either an
exception text or the optional response text; a nonempty stripped text
returns immediately; a not-found or quota error records the error and
moves to the next candidate; any other exception records the error and
breaks out of this inner loop only; empty text falls through to the next
candidate. -/
def try_candidates (call : String → Except String (Option String)) :
    List String → Option String → Option String ⊕ (String × String)
  | [], le => Sum.inl le
  | m :: ms, le =>
    match call m with
    | Except.ok payload =>
      let text := trim_str (payload.getD "")
      if text ≠ "" then Sum.inr (text, m) else try_candidates call ms le
    | Except.error e =>
      if is_not_found_model_error e then try_candidates call ms (some e)
      else if is_quota_error e then try_candidates call ms (some e)
      else Sum.inl (some e)

/-- Outer loop of generate_answer over the configured base models; an
inner break does not stop this loop. -/
def try_models (call : String → Except String (Option String)) :
    List String → Option String → Option String ⊕ (String × String)
  | [], le => Sum.inl le
  | bm :: bms, le =>
    match try_candidates call (model_candidates bm) le with
    | Sum.inr r => Sum.inr r
    | Sum.inl le' => try_models call bms le'

/-- Embedding of generate_answer: fails when the provider is disabled
(the prompt text built from question, context and tone is consumed by the
provider, which the call parameter abstracts per request); otherwise
walks the base models and their -latest variants and either returns the
first nonempty text with the model that produced it, or raises the last
recorded error, with the fixed message when no call raised. -/
def generate_answer (enabled : Bool) (models : List String)
    (call : String → Except String (Option String)) : Except String (String × String) :=
  if !enabled then Except.error "Gemini tidak aktif"
  else
    match try_models call models none with
    | Sum.inr r => Except.ok r
    | Sum.inl le => Except.error (le.getD "Gemini tidak mengembalikan jawaban")

/-- Provider fixture for the generation counterexample: a hard error on
every model except m2. -/
def gen_call_ex : String → Except String (Option String) := fun m =>
  if m = "m2" then Except.ok (some "jawaban") else Except.error "boom"

/-- Database row of the law_articles table as consumed by the index
builders; nullable columns are optional strings and the keyword list is
the decoded keywords_json. -/
structure Article where
  id : ℕ
  uu : String
  pasal : String
  title : Option String
  legal_text : Option String
  explanation : Option String
  keywords : List String
  status : String
deriving DecidableEq

/-- Body text shared by both builders: the legal text, the explanation
and a Keyword line, joined by newlines and stripped; falsy fields
contribute nothing. -/
def article_isi (a : Article) : String :=
  let legal := a.legal_text.getD ""
  let expl := a.explanation.getD ""
  let parts :=
    (if legal ≠ "" then [legal] else []) ++
      (if expl ≠ "" then [expl] else []) ++
      (if a.keywords ≠ [] then ["Keyword: " ++ String.intercalate ", " a.keywords]
        else [])
  trim_str (String.intercalate "\n" parts)

/-- Title string of build_index.py, whose f-string renders a missing
title as the text None. -/
def article_judul_build (a : Article) : String :=
  a.uu ++ " - " ++ a.pasal ++ ": " ++
    (match a.title with
      | none => "None"
      | some t => t)

/-- Title string of rebuild_index_from_db, which renders a missing title
as the empty string. -/
def article_judul_rebuild (a : Article) : String :=
  a.uu ++ " - " ++ a.pasal ++ ": " ++ a.title.getD ""

/-- Observable provider events of the resumable rebuild loop. -/
inductive BuildEvent
  | embed_call (id : ℕ)
  | sleep
deriving DecidableEq

/-- Loop body of build_index.py main over the active articles: an article
whose id is already indexed is skipped, an article with empty body is
skipped, and any other article is embedded, appended and followed by a
one-second sleep.  The provider is a total function here, modelling the
run in which every embedding call succeeds. -/
def resume_entries (ids : List String) (embed : String → List ℚ) :
    List Article → List Doc × List BuildEvent
  | [] => ([], [])
  | a :: rest =>
    if ids.contains (toString a.id) then resume_entries ids embed rest
    else if article_isi a = "" then resume_entries ids embed rest
    else
      let r := resume_entries ids embed rest
      (⟨toString a.id, article_judul_build a, article_isi a, embed (article_isi a)⟩ :: r.1,
        BuildEvent.embed_call a.id :: BuildEvent.sleep :: r.2)

/-- Embedding of build_index.py main on an already-loaded existing index
and the queried article rows: only articles with status berlaku are
considered, those already present by id in the loaded index are skipped,
and fresh entries are appended after the existing ones. -/
def build_index_main (existing : List Doc) (articles : List Article)
    (embed : String → List ℚ) : List Doc × List BuildEvent :=
  let active := articles.filter (fun a => a.status == "berlaku")
  let r := resume_entries (existing.map Doc.id) embed active
  (existing ++ r.1, r.2)

/-- Embedding vector chosen by rebuild_index_from_db for one article:
the provider result, or the empty vector on an exception. -/
def rebuild_vec (embed : String → Except String (List ℚ)) (a : Article) : List ℚ :=
  match embed (article_isi a) with
  | Except.ok v => v
  | Except.error _ => []

/-- Loop body of rebuild_index_from_db: an article with empty body is
skipped, an embedding failure or an empty embedding vector skips the
article, and every other article contributes its own entry — no
de-duplication of any kind is applied. -/
def rebuild_entries (embed : String → Except String (List ℚ)) : List Article → List Doc
  | [] => []
  | a :: rest =>
    if article_isi a = "" then rebuild_entries embed rest
    else
      if rebuild_vec embed a = [] then rebuild_entries embed rest
      else
        ⟨toString a.id, article_judul_rebuild a, article_isi a, rebuild_vec embed a⟩ ::
          rebuild_entries embed rest

/-- Embedding of rebuild_index_from_db from main.py: the articles with
status berlaku, in ascending id order, are rebuilt into a fresh index. -/
def rebuild_index_from_db (articles : List Article)
    (embed : String → Except String (List ℚ)) : List Doc :=
  rebuild_entries embed
    (List.insertionSort (fun a b : Article => a.id ≤ b.id)
      (articles.filter (fun a => a.status == "berlaku")))

/-- Word set of detect_language for English. -/
def en_words : List String :=
  ["hello", "hi", "thanks", "please", "car", "motorcycle", "traffic", "ticket",
    "license", "accident", "road"]

/-- Word set of detect_language for Indonesian. -/
def id_words : List String :=
  ["halo", "hai", "makasih", "terima", "tolong", "motor", "mobil", "lalu",
    "lintas", "tilang", "sim", "kecelakaan", "jalan"]

/-- Embedding of detect_language: counts hits of the two word sets over
the whitespace-split normalized text; empty text defaults to id. -/
def detect_language (text : String) : String :=
  let t := norm_text text
  if t = "" then "id"
  else
    let ws := split_ws t
    let en_hits := (ws.filter (fun w => en_words.contains w)).length
    let id_hits := (ws.filter (fun w => id_words.contains w)).length
    if id_hits < en_hits then "en" else "id"

/-- Phrase table of looks_like_prompt_injection. -/
def injection_phrases : List String :=
  ["ignore previous", "ignore all", "abaikan instruksi", "abaikan semua",
    "system prompt", "developer message", "bocorkan", "api key", "kunci api",
    "password", "token rahasia", "jailbreak", "bypass"]

/-- Embedding of looks_like_prompt_injection. -/
def looks_like_prompt_injection (q : String) : Bool :=
  injection_phrases.any (fun b => contains_sub (norm_text q) b)

/-- Phrase table of safety_refuse_or_redirect. -/
def illegal_phrases : List String :=
  ["cara kabur dari polisi", "cara menghindari tilang", "cara lolos etle",
    "plat palsu", "nomor polisi palsu", "hapus bukti", "manipulasi etle",
    "nembus razia"]

/-- Refusal text of safety_refuse_or_redirect. -/
def safety_refuse_text (lang : String) : String :=
  if lang = "en" then
    "I can’t help with evading law enforcement or bypassing traffic enforcement. If you want, tell me the situation and I can suggest legal, safe options.\nBottom line: I can help you stay safe and compliant, not evade enforcement."
  else
    "Aku nggak bisa bantu cara menghindari penegakan hukum/tilang atau trik lolos razia. Kalau kamu ceritain situasinya, aku bisa bantu opsi yang legal dan aman.\nIntinya: aku bantu yang aman dan sesuai aturan, bukan cara mengelabui."

/-- Embedding of safety_refuse_or_redirect. -/
def safety_refuse_or_redirect (q lang : String) : Option String :=
  if illegal_phrases.any (fun x => contains_sub (norm_text q) x) then
    some (safety_refuse_text lang)
  else none

/-- Keyword table of is_traffic_related. -/
def traffic_keywords : List String :=
  ["lalu lintas", "angkutan jalan", "jalan raya", "jalan tol", "helm",
    "sabuk pengaman", "motor", "mobil", "kendaraan", "sim", "stnk", "tilang",
    "etle", "ngebut", "batas kecepatan", "rambu", "marka", "stop line",
    "zebra cross", "penyeberangan", "lampu merah", "lampu kuning", "lampu hijau",
    "lampu lalu lintas", "traffic light", "apill", "polisi lalu lintas",
    "pengemudi", "penumpang", "berkendara", "parkir", "kecelakaan", "tabrakan",
    "menabrak", "putar balik", "melawan arus", "menyalip", "bahu jalan"]

/-- Search for the regex of is_traffic_related — lampu followed later by
one of the colours kuning, merah or hijau, every word bounded: scans for
a bounded occurrence of lampu and searches the colours in its suffix,
whose preceding character is the final u of lampu. -/
def lampu_colour_search (prev : Option Char) : List Char → Bool
  | [] => false
  | c :: rest =>
    (bound_ok prev && starts_word "lampu".toList (c :: rest) &&
      (word_search_aux "kuning".toList (some 'u') ((c :: rest).drop 5) ||
        word_search_aux "merah".toList (some 'u') ((c :: rest).drop 5) ||
        word_search_aux "hijau".toList (some 'u') ((c :: rest).drop 5))) ||
      lampu_colour_search (some c) rest

/-- Embedding of is_traffic_related. -/
def is_traffic_related (question : String) : Bool :=
  let q := norm_text question
  traffic_keywords.any (fun k => contains_sub q k) || lampu_colour_search none q.toList

/-- Greeting table of smalltalk_match. -/
def greetings : List String :=
  ["hai", "halo", "hi", "hello", "pagi", "siang", "sore", "malam",
    "assalamualaikum", "permisi", "tes", "test", "cek", "coba", "yow", "yo"]

/-- Thanks table of smalltalk_match. -/
def thanks_words : List String :=
  ["makasih", "terima kasih", "thanks", "thx", "mantap", "sip", "oke", "ok",
    "nice", "keren"]

/-- Embedding of smalltalk_match. -/
def smalltalk_match (question : String) : Option String :=
  let q := norm_text question
  if q = "" then none
  else if greetings.contains q || greetings.any (fun g => starts_with_str q (g ++ " ")) then
    some "greet"
  else if thanks_words.contains q || thanks_words.any (fun t => contains_sub q t) then
    some "thanks"
  else if q = "wkwk" || q = "haha" || q = "hehe" || q = "lol" then some "laugh"
  else none

/-- Embedding of smalltalk_answer. -/
def smalltalk_answer (kind lang : String) : String :=
  if lang = "en" then
    if kind = "thanks" then
      "You’re welcome. What traffic/safety topic do you want to ask about?\nBottom line: ask me anything about traffic rules or safe driving."
    else if kind = "laugh" then
      "😄 Got it. Want to ask about traffic rules, tickets, or safe driving?\nBottom line: tell me what you’re curious about."
    else
      "Hi. Tell me your question about traffic rules or a driving situation.\nBottom line: share the situation and I’ll help."
  else
    if kind = "thanks" then
      "Sama-sama ya. Mau tanya topik apa soal lalu lintas?\nIntinya: sebutin situasinya, aku bantu."
    else if kind = "laugh" then
      "😄 Oke. Mau tanya soal aturan, tilang/ETLE, atau tips aman?\nIntinya: bilang aja situasinya."
    else
      "Hai. Kamu mau tanya soal aturan lalu lintas atau kejadian apa?\nIntinya: ceritain singkat situasinya, biar aku bantu."

/-- Slang table of detect_tone. -/
def slang_words : List String :=
  ["ga", "gak", "gk", "nggak", "ngga", "wkwk", "haha", "hehe", "kok", "aja"]

/-- Embedding of detect_tone. -/
def detect_tone (question : String) : String :=
  if slang_words.any (fun sw => contains_sub (norm_text question) sw) then "santai"
  else "formal"

/-- Session preference record mirroring the JSON dict persisted per
session; both keys optional. -/
structure Prefs where
  verbosity : Option String := none
  tone_pref : Option String := none
deriving DecidableEq

/-- Embedding of parse_pref_patch; within each key the later assignment
of the source wins when several phrases match. -/
def parse_pref_patch (question : String) : Prefs :=
  let q := norm_text question
  let verbosity :=
    if contains_sub q "jawab panjang" || contains_sub q "jawaban panjang" ||
        contains_sub q "jawaban detail" || contains_sub q "detail" ||
        contains_sub q "jelasin lengkap" || contains_sub q "lengkap" then some "long"
    else if contains_sub q "jawab singkat" || contains_sub q "jawaban singkat" ||
        contains_sub q "singkat aja" || contains_sub q "singkatnya" ||
        contains_sub q "ringkas" || contains_sub q "pendek" then some "short"
    else none
  let tone_pref :=
    if contains_sub q "formal aja" || contains_sub q "bahasa formal" then some "formal"
    else if contains_sub q "santai aja" || contains_sub q "bahasa santai" then some "santai"
    else none
  ⟨verbosity, tone_pref⟩

/-- Dict truthiness of a preference patch. -/
def prefs_is_empty (p : Prefs) : Bool :=
  p.verbosity.isNone && p.tone_pref.isNone

/-- Dict update of stored preferences by a patch, patch keys winning. -/
def prefs_update (base patch : Prefs) : Prefs :=
  ⟨(patch.verbosity).orElse (fun _ => base.verbosity),
    (patch.tone_pref).orElse (fun _ => base.tone_pref)⟩

/-- Filler-word table of _is_preference_only. -/
def pref_strip_words : List String :=
  ["aku", "saya", "mau", "ingin", "tolong", "pls", "please", "dong", "ya", "yah",
    "deh", "jawab", "jawaban", "singkat", "ringkas", "pendek", "detail",
    "panjang", "lengkap", "aja", "saja", "kok", "nih", "gimana", "bagaimana"]

/-- Embedding of _is_preference_only.  On the normalized question the
punctuation-to-space substitution followed by word-boundary removal of
the filler words equals filtering the whitespace-split tokens. -/
def is_preference_only (question : String) (patch : Prefs) : Bool :=
  if prefs_is_empty patch then false
  else if is_traffic_related question then false
  else if (smalltalk_match question).isSome then false
  else
    let q := norm_text question
    let cleaned := q.toList.map (fun c => if is_word_char c || c.isWhitespace then c else ' ')
    let toks := (split_ws (String.mk cleaned)).filter (fun t => !(pref_strip_words.contains t))
    toks.length ≤ 2

/-- Embedding of compute_verbosity. -/
def compute_verbosity (question intent : String) (prefs : Prefs) : String :=
  if prefs.verbosity == some "short" || prefs.verbosity == some "normal" ||
      prefs.verbosity == some "long" then (prefs.verbosity).getD "normal"
  else
    let q := norm_text question
    if contains_sub q "singkat" || contains_sub q "ringkas" || contains_sub q "pendek" then
      "short"
    else if contains_sub q "detail" || contains_sub q "lengkap" || contains_sub q "panjang" then
      "long"
    else if intent = "butuh_pasal" then "normal"
    else if (split_ws q).length ≤ 6 then "short"
    else "normal"

/-- Sentence splitter of postprocess_answer_by_verbosity: splits at each
whitespace run immediately preceded by a full stop, question mark or
exclamation mark (the lookbehind of the source regex); the accumulator
holds the current piece reversed, so its head is the previous character. -/
def split_sentences_aux (cur : List Char) : List Char → List (List Char)
  | [] => [cur.reverse]
  | c :: rest =>
    if c.isWhitespace &&
        (cur.head? == some '.' || cur.head? == some '?' || cur.head? == some '!') then
      cur.reverse :: split_sentences_aux [] (rest.dropWhile Char.isWhitespace)
    else split_sentences_aux (c :: cur) rest
termination_by l => l.length
decreasing_by
  · have := (List.dropWhile_sublist (l := rest) (p := Char.isWhitespace)).length_le
    simp only [List.length_cons]
    omega
  · simp only [List.length_cons]
    omega

/-- Sentence split over strings. -/
def split_sentences (t : String) : List String :=
  (split_sentences_aux [] t.toList).map String.mk

/-- Search for the trailing summary line: the last stripped line starting
(lowercased) with intinya. -/
def find_summary : List String → Option String
  | [] => none
  | line :: rest =>
    match find_summary rest with
    | some s => some s
    | none =>
      let l := trim_str line
      if starts_with_str (lower_str l) "intinya" then some l else none

/-- Embedding of postprocess_answer_by_verbosity: verbosities other than
short pass through; short keeps the first two sentences plus the explicit
summary line when present and not already contained in the head. -/
def postprocess_answer_by_verbosity (text verbosity : String) : String :=
  let t := trim_str text
  if t = "" then t
  else if verbosity ≠ "short" then t
  else
    let sentences := ((split_sentences t).map trim_str).filter (fun s => s ≠ "")
    let head :=
      if sentences.isEmpty then t
      else trim_str (String.intercalate " " (sentences.take 2))
    match find_summary (split_newlines t) with
    | some line =>
      if !(contains_sub head line) then trim_str (head ++ "\n\n" ++ line) else trim_str head
    | none => trim_str head

/-- Embedding of fetch_history_text, applied to the messages the database
query returns (most-recent-first, already limited to the turn budget):
reverse to chronological order, skip blank contents, tag roles, shorten
each turn to 260 characters and the joined history to the character
budget. -/
def fetch_history_text (msgs : List (String × String)) (max_history_chars : ℕ) : String :=
  if msgs.isEmpty then ""
  else
    let parts := msgs.reverse.filterMap (fun m =>
      let role := lower_str (trim_str m.1)
      let txt := trim_str m.2
      if txt = "" then none
      else some ((if role = "user" then "User" else "Asisten") ++ ": " ++ shorten txt 260))
    shorten (trim_str (String.intercalate "\n" parts)) max_history_chars

/-- Trigger table of action_helper_mode. -/
def action_triggers : List String :=
  ["apa yang harus saya lakukan", "apa yg harus saya lakukan", "langkah", "step",
    "cara", "tahapan", "prosedur", "gimana urutannya"]

/-- Embedding of action_helper_mode. -/
def action_helper_mode (question : String) : Bool :=
  action_triggers.any (fun t => contains_sub (norm_text question) t)

/-- Order-preserving first-occurrence de-duplication that also drops
blank entries, as in the closing loops of case_intake_questions and
suggested_next_questions. -/
def dedup_keep_first (seen : List String) : List String → List String
  | [] => []
  | x :: rest =>
    if x = "" || seen.contains x then dedup_keep_first seen rest
    else x :: dedup_keep_first (x :: seen) rest

/-- Embedding of case_intake_questions. -/
def case_intake_questions (question : String) : List String :=
  let q := norm_text question
  let qs :=
    (if (split_ws q).length ≤ 3 && (smalltalk_match q).isNone then
      ["Maksudnya kamu nanya soal apa persisnya, dan situasinya gimana?"] else []) ++
    (if contains_sub q "tilang" || contains_sub q "etle" then
      (if !(contains_sub q "etle") && !(contains_sub q "manual") then
        ["Itu tilang manual atau ETLE?"] else []) ++
      (if !(contains_sub q "motor") && !(contains_sub q "mobil") then
        ["Kendaraannya motor atau mobil?"] else [])
      else []) ++
    (if contains_sub q "kecelakaan" || contains_sub q "tabrakan" || contains_sub q "menabrak" then
      (if !(contains_sub q "korban") && !(contains_sub q "luka") && !(contains_sub q "meninggal") then
        ["Ada korban luka atau hanya kerusakan kendaraan?"] else []) ++
      (if !(contains_sub q "tol") && contains_sub q "jalan" then
        ["Kejadiannya di jalan kota atau tol?"] else [])
      else []) ++
    (if contains_sub q "parkir" then
      (if !(contains_sub q "rambu") && !(contains_sub q "bahu") then
        ["Parkirnya di bahu jalan atau area parkir resmi, dan ada rambu larangan parkir nggak?"]
        else [])
      else [])
  (dedup_keep_first [] qs).take 3

/-- Embedding of clarify_message. -/
def clarify_message (tone lang : String) (qs : List String) : String :=
  if lang = "en" then
    if !qs.isEmpty then
      String.intercalate "\n"
        (["To answer accurately, I need a bit more context:"] ++
          qs.map (fun x => "- " ++ x) ++
          ["Bottom line: reply with those details and I’ll help."])
    else
      "Could you share a bit more context so I can answer precisely?\nBottom line: add details and I’ll help."
  else
    if !qs.isEmpty then
      let intro :=
        if tone = "santai" then "Biar aku jawab tepat, aku tanya sedikit ya:"
        else "Agar jawabannya tepat, saya perlu memastikan beberapa hal:"
      String.intercalate "\n"
        ([intro] ++ qs.map (fun x => "- " ++ x) ++
          ["Intinya: jawab poin di atas, nanti aku bantu jawab paling pas."])
    else
      "Boleh jelasin sedikit konteksnya? Biar aku jawab lebih pas.\nIntinya: tambah detail, nanti aku bantu."

/-- Regex pattern of the FAQ rule tables: either a plain substring or a
word enclosed in word boundaries. -/
inductive Pat
  | lit (s : String)
  | word (s : String)
deriving DecidableEq

/-- Pattern evaluation against the normalized question. -/
def pat_match (q : String) : Pat → Bool
  | Pat.lit s => contains_sub q s
  | Pat.word s => word_search q s

/-- One FAQ rule of the FAQ_RULES table. -/
structure FaqRule where
  category : String
  patterns : List Pat
  answer_id : String
  answer_en : String

/-- Embedding of the FAQ_RULES table of main.py. -/
def faq_rules : List FaqRule :=
  [⟨"SIM",
    [Pat.word "sim", Pat.lit "buat sim", Pat.lit "perpanjang sim", Pat.lit "sim mati",
      Pat.lit "sim habis", Pat.lit "sim hilang"],
    "Kalau soal SIM, biasanya ada 3 skenario: bikin baru, perpanjang, atau hilang/rusak.\n- Bikin baru: siapkan identitas (KTP), cek syarat usia, ikut ujian teori & praktik sesuai jenis SIM.\n- Perpanjang: usahakan sebelum masa berlaku habis; siapkan KTP, SIM lama, dan ikuti prosedur perpanjangan.\n- Hilang/rusak: umumnya perlu surat keterangan/laporan sesuai ketentuan layanan, lalu proses penggantian.\nIntinya: tentukan dulu kamu mau bikin baru/perpanjang/hilang, nanti aku bisa arahkan langkah yang pas.",
    "For a driving license, it’s usually one of these: new, renewal, or lost/damaged.\n- New: prepare ID, meet age requirements, pass theory & practical tests.\n- Renewal: renew before expiry; bring required documents.\n- Lost/damaged: you may need a report/statement, then apply for replacement.\nBottom line: tell me which case you have, and I’ll guide the right steps."⟩,
   ⟨"STNK",
    [Pat.word "stnk", Pat.lit "pajak", Pat.lit "stnk mati", Pat.lit "stnk habis",
      Pat.lit "perpanjang stnk"],
    "Untuk STNK/pajak kendaraan, biasanya yang perlu kamu pastikan: masa berlaku, status pajak tahunan, dan kalau ada pengesahan.\nKalau kamu jelasin: jenis kendaraan (motor/mobil) dan statusnya (pajak tahunan/5 tahunan), aku bisa bantu langkah-langkahnya.\nIntinya: sebutkan motor/mobil + pajak tahunan atau 5 tahunan, biar jawabanku tepat.",
    "For vehicle registration/tax, the key is the validity period and whether it’s annual vs the bigger periodic renewal.\nTell me: motorcycle/car + annual tax or the periodic renewal, and I’ll guide the steps.\nBottom line: share vehicle type and renewal type so I can be precise."⟩,
   ⟨"Helm & Safety",
    [Pat.lit "helm", Pat.lit "tidak pakai helm", Pat.lit "sabuk pengaman",
      Pat.lit "seatbelt", Pat.lit "pengaman"],
    "Soal keselamatan: helm standar + dipakai dengan benar itu penting banget, begitu juga sabuk pengaman.\nSelain urusan aturan, dampak utamanya soal mengurangi risiko cedera kepala/cedera fatal saat kecelakaan.\nIntinya: pakai perlindungan yang benar itu bukan cuma biar aman dari tilang, tapi buat nyelametin nyawa.",
    "Safety-wise: a proper helmet and seatbelt reduce the risk of severe injury.\nIt’s not only about rules—this is about preventing head trauma and fatal injuries.\nBottom line: use correct protection primarily to stay alive, not just to avoid tickets."⟩,
   ⟨"Lampu merah & rambu",
    [Pat.lit "lampu merah", Pat.lit "rambu", Pat.lit "melanggar rambu",
      Pat.lit "stop line", Pat.lit "marka"],
    "Kalau soal lampu merah/rambu: prinsipnya ikut sinyal & marka, dan berhenti di garis henti bila ada.\nKalau kamu sebutkan lokasinya (persimpangan besar/kecil) dan situasinya (ramai/sepi, ada kamera ETLE atau nggak), aku bisa bantu analisisnya lebih pas.\nIntinya: jelasin konteks lokasi & kondisi biar aku bisa jawab lebih tepat.",
    "For red lights/signs: follow signals and road markings, and stop at the stop line if present.\nIf you tell me the intersection type and whether there’s ETLE camera, I can be more precise.\nBottom line: share context so I can answer accurately."⟩,
   ⟨"ETLE/Tilang",
    [Pat.word "etle", Pat.lit "tilang", Pat.lit "surat tilang", Pat.lit "kena kamera",
      Pat.lit "e-tilang"],
    "Kalau ETLE/tilang: biasanya yang penting itu jenis pelanggaran, bukti (foto/video), dan langkah tindak lanjut (konfirmasi/penyelesaian).\nBiar aku bantu tepat: itu tilang ETLE atau manual, dan kendaraannya motor atau mobil?\nIntinya: sebutkan ETLE/manual + motor/mobil, nanti aku arahkan langkah aman dan tertibnya.",
    "For tickets/ETLE: key points are violation type, evidence (photo/video), and follow-up steps.\nTell me: ETLE or manual, and motorcycle or car.\nBottom line: share ETLE/manual + vehicle type and I’ll guide you properly."⟩]

/-- Embedding of faq_match: the first rule any of whose patterns matches
the normalized question. -/
def faq_match (question : String) : Option FaqRule :=
  faq_rules.find? (fun rule => rule.patterns.any (pat_match (norm_text question)))

/-- Embedding of suggested_next_questions. -/
def suggested_next_questions (intent question : String) : List String :=
  let q := norm_text question
  let out :=
    (if contains_sub q "tilang" || contains_sub q "etle" then
      ["Itu ETLE atau tilang manual?", "Pelanggarannya apa persisnya?",
        "Mau langkah-langkah penyelesaiannya?"] else []) ++
    (if contains_sub q "parkir" then
      ["Lokasinya ada rambu larangan parkir?",
        "Parkirnya di bahu jalan atau area parkir resmi?", "Mau tips parkir aman?"] else []) ++
    (if contains_sub q "kecelakaan" || contains_sub q "tabrakan" then
      ["Ada korban luka atau hanya kerusakan?", "Butuh langkah-langkah setelah kecelakaan?",
        "Mau susun kronologi singkat?"] else []) ++
    (if (smalltalk_match q).isSome then
      ["Tanya soal ETLE/tilang", "Tanya soal SIM/STNK",
        "Tanya soal aturan helm & keselamatan"] else []) ++
    (if intent = "butuh_pasal" then
      ["Mau versi ringkas pasal terkait?", "Mau jelasin keselamatan di balik aturannya?",
        "Kejadiannya motor atau mobil?"] else [])
  let out :=
    if out.isEmpty then
      ["Motor atau mobil?", "Kejadiannya di mana?", "Mau jawaban singkat atau detail?"]
    else out
  (dedup_keep_first [] out).take 3

/-- Budget-capped document blocks of build_context: the loop stops
entirely at the first block that would exceed the remaining budget. -/
def doc_blocks_aux (max_chars : ℕ) (total i : ℕ) : List ScoredDoc → List String
  | [] => []
  | d :: rest =>
    let judul := trim_str (if d.doc.judul ≠ "" then d.doc.judul else "Dokumen " ++ toString i)
    let isi := trim_str d.doc.isi
    let block := shorten (trim_str ("[" ++ toString i ++ "] " ++ judul ++ "\n" ++ isi)) 1400
    if max_chars < total + block.length then []
    else block :: doc_blocks_aux max_chars (total + block.length) (i + 1) rest

/-- Embedding of build_context; the meta dict always carries the
language, verbosity and mode keys when _chat_impl builds it, so it is
passed as those three strings here. -/
def build_context (docs : List ScoredDoc) (history lang verbosity mode : String)
    (max_doc_context_chars : ℕ) : String :=
  let lines :=
    [if lang = "en" then "BAHASA_JAWABAN: English" else "BAHASA_JAWABAN: Indonesia"] ++
    (if verbosity ≠ "" then ["PANJANG_JAWABAN: " ++ verbosity] else []) ++
    (if mode ≠ "" then ["MODE: " ++ mode] else []) ++
    ["SAFETY: jangan mengarang pasal/UU; jika ragu, minta klarifikasi; fokus keselamatan dan kepatuhan.",
      "KONSISTENSI: jawab terstruktur, jelas, tidak menggurui, dan akhiri 1 kalimat ringkasan inti."] ++
    (if mode = "action_helper" then
      ["FORMAT: jika memberi langkah, gunakan langkah bernomor (1), (2), (3) dan opsi alternatif bila perlu."]
      else [])
  let parts :=
    ["ATURAN TAMBAHAN:\n" ++ String.intercalate "\n" lines] ++
      (if history ≠ "" then ["RIWAYAT PERCAKAPAN:\n" ++ history] else [])
  if docs.isEmpty then
    trim_str (String.intercalate "\n\n"
      (parts ++ ["KONTEKS DOKUMEN:\nTidak ada konteks dokumen yang relevan ditemukan."]))
  else
    let blocks := doc_blocks_aux max_doc_context_chars 0 1 docs
    trim_str (String.intercalate "\n\n"
      (parts ++
        ["KONTEKS DOKUMEN:\n" ++
          (if !blocks.isEmpty then String.intercalate "\n\n" blocks
            else "Tidak ada konteks dokumen yang relevan ditemukan.")]))

/-- Response source entry (the SourceDoc model of main.py). -/
structure SourceDoc where
  id : String
  judul : String
  isi : String
  score : ℝ

/-- Score of one cited source in build_sources: the stored score entry,
or a freshly computed cosine similarity when that entry is falsy (the
Python or applied to a 0.0 score). -/
noncomputable def source_score (query_emb : List ℚ) (d : ScoredDoc) : ℝ :=
  if d.score = 0 then cosine_similarity query_emb d.doc.embedding else d.score

/-- Conversion of one retrieved document to a cited source. -/
noncomputable def source_doc_of (query_emb : List ℚ) (d : ScoredDoc) : SourceDoc :=
  ⟨d.doc.id, d.doc.judul, d.doc.isi, source_score query_emb d⟩

/-- Embedding of build_sources from main.py: empty unless the intent is
butuh_pasal, the query embedding is non-empty and at least one document
was retrieved; otherwise exactly the retrieved documents, in order. -/
noncomputable def build_sources (intent : String) (query_emb : List ℚ)
    (docs : List ScoredDoc) : List SourceDoc :=
  if intent != "butuh_pasal" || query_emb.isEmpty || docs.isEmpty then []
  else docs.map (source_doc_of query_emb)

/-- Embedding of SMART_DISCLAIMER_ID. -/
def smart_disclaimer_id : String :=
  "Catatan singkat: jawaban ini bersifat informasi umum dan edukasi keselamatan; untuk kasus spesifik, cek rambu/lokasi setempat dan pertimbangkan konfirmasi ke petugas/instansi terkait."

/-- Embedding of SMART_DISCLAIMER_EN. -/
def smart_disclaimer_en : String :=
  "Quick note: this is general information for safety/education; for specific cases, check local signs/rules and consider confirming with authorities."

/-- Embedding of final_disclaimer. -/
def final_disclaimer (lang : String) : String :=
  if lang = "en" then smart_disclaimer_en else smart_disclaimer_id

/-- Embedding of should_append_disclaimer. -/
def should_append_disclaimer (intent answer : String) : Bool :=
  if answer = "" then true
  else if intent = "butuh_pasal" then true
  else false

/-- Response record of the chat operation (the ChatResponse model). -/
structure ChatResponse where
  answer : String
  sources : List SourceDoc
  session_id : Option ℕ := none
  intent : Option String := none
  tone : Option String := none
  mode : Option String := none
  category : Option String := none
  suggested_questions : List String := []
  model_used : Option String := none
  disclaimer : Option String := none

/-- Environment of one _chat_impl call: the request fields, the
per-client rate-limiter state and clock, the session state the database
layer provides (ensured session id, stored preferences, fetched history
rows most-recent-first), the configuration surface, the in-memory index
and docs cache, and the external provider functions (embedding per text,
generation per model name). -/
structure ChatEnv where
  question : String
  req_session_id : Option ℕ
  now : ℚ
  rate_state : Option (ℚ × ℕ)
  max_requests_per_minute : ℕ
  session_id : ℕ
  prefs0 : Prefs
  history_msgs : List (String × String)
  intent_model : Option (String → Option String)
  index : List Doc
  docs_cache : DocsCache
  embed_fn : String → Except String (List ℚ)
  gemini_enabled : Bool
  gen_models : List String
  gen_call : String → Except String (Option String)
  rag_top_k : ℤ
  rag_min_score : ℝ
  max_history_chars : ℕ
  max_doc_context_chars : ℕ

/-- Retrieval block of _chat_impl: embed the question and search; any
exception empties both the query embedding and the result list. -/
noncomputable def chat_retrieval (env : ChatEnv) : List ℚ × List ScoredDoc :=
  match env.embed_fn env.question with
  | Except.error _ => ([], [])
  | Except.ok qe =>
    (qe,
      (search_top_k env.index env.docs_cache env.now qe env.rag_top_k env.rag_min_score).1)

/-- Guardrail answer of the butuh_pasal-without-documents branch. -/
def guardrail_answer (lang : String) : String :=
  if lang = "en" then
    "I can help, but I don’t have enough document context to cite a specific article/law without guessing. Tell me the exact violation, vehicle type, and where it happened (city road/toll, ETLE camera or not).\nBottom line: share details and I’ll map it more accurately."
  else
    "Aku bisa bantu, tapi aku belum punya konteks pasal/UU yang cukup dari dokumen yang tersedia. Biar nggak ngarang, boleh jelasin pelanggarannya apa, kendaraan apa, dan kejadian di mana (mis. jalan kota/tol, ada ETLE atau tidak)?\nIntinya: tambah detail dulu, nanti aku bantu cari dasar yang paling relevan."

/-- Failure answer when generation raised a quota-classified error. -/
def gen_quota_answer (lang : String) : String :=
  if lang = "en" then
    "The AI service is busy or quota is exhausted. Please try again shortly.\nBottom line: retry in a moment."
  else
    "Layanan AI sedang penuh atau kuota sedang habis. Coba lagi sebentar ya.\nIntinya: coba ulang beberapa saat lagi."

/-- Failure answer for any other generation error. -/
def gen_fail_answer (lang : String) : String :=
  if lang = "en" then
    "There was an issue generating the AI response. Please try again.\nBottom line: retry shortly."
  else
    "Ada kendala saat memproses jawaban AI. Coba ulang sebentar ya.\nIntinya: coba lagi beberapa saat."

/-- Refusal answer of the prompt-injection branch. -/
def injection_answer (lang : String) : String :=
  if lang = "en" then
    "I can’t follow requests to bypass system rules or reveal secrets. If you ask about traffic rules/safety, I’ll help safely.\nBottom line: ask a traffic question and I’ll answer."
  else
    "Aku nggak bisa mengikuti instruksi yang mencoba mengabaikan aturan/sistem atau meminta hal rahasia. Kalau kamu tanya soal lalu lintas, aku bantu dengan aman dan sesuai aturan.\nIntinya: jelasin pertanyaan lalu lintasnya, aku jawab."

/-- Out-of-scope answer of the non-traffic branch. -/
def out_of_scope_answer (lang : String) : String :=
  if lang = "en" then
    "Sorry—I can only help with traffic rules/safety in Indonesia. Please rephrase your question to be about road rules, safety, license/registration, signs, ETLE, or a road incident.\nBottom line: keep it traffic-related and I’ll help."
  else
    "Maaf, aku fokus membantu pertanyaan yang masih berkaitan dengan lalu lintas dan hukum lalu lintas di Indonesia. Kalau kamu mau, coba tulis ulang pertanyaannya supaya tetap tentang aturan jalan, keselamatan, SIM/STNK, rambu, ETLE, atau kejadian di jalan.\nIntinya: ubah pertanyaan ke topik lalu lintas, nanti aku bantu."

/-- Confirmation answer of the preference-only branch, by verbosity. -/
def pref_only_answer (vb lang : String) : String :=
  if vb = "short" then
    if lang ≠ "en" then
      "Siap. Untuk sesi ini aku jawab singkat ya. Sekarang kamu mau tanya apa soal lalu lintas? 🙂\nIntinya: tulis pertanyaan lalu lintasnya, nanti aku jawab ringkas."
    else
      "Got it. I’ll keep answers short for this session. What traffic question do you have? 🙂\nBottom line: ask a traffic question and I’ll answer briefly."
  else if vb = "long" then
    if lang ≠ "en" then
      "Siap. Untuk sesi ini aku jawab lebih detail ya. Sekarang kamu mau tanya apa soal lalu lintas? 🙂\nIntinya: tulis pertanyaan lalu lintasnya, nanti aku jelasin lengkap."
    else
      "Got it. I’ll answer in more detail for this session. What traffic question do you have? 🙂\nBottom line: ask a traffic question and I’ll answer thoroughly."
  else
    if lang ≠ "en" then
      "Oke. Preferensi jawaban sudah aku simpan untuk sesi ini. Sekarang kamu mau tanya apa soal lalu lintas? 🙂\nIntinya: tulis pertanyaan lalu lintasnya, nanti aku bantu."
    else
      "Okay. I saved your preference for this session. What traffic question do you have? 🙂\nBottom line: ask a traffic question and I’ll help."

/-- Tone override from stored preferences, as applied by _chat_impl. -/
def apply_tone_pref (prefs : Prefs) (tone : String) : String :=
  if prefs.tone_pref == some "santai" || prefs.tone_pref == some "formal" then
    (prefs.tone_pref).getD tone
  else tone

/-- Final composition stage of _chat_impl, from the guardrail check on:
the butuh_pasal-without-documents guardrail, generation with failure
classification, verbosity post-processing, conditional disclaimer and
source building. -/
noncomputable def compose_stage (env : ChatEnv) (question intent tone lang verbosity : String)
    (history_text : String) (qe : List ℚ) (docs : List ScoredDoc) : ChatResponse :=
  let disc := final_disclaimer lang
  if intent == "butuh_pasal" && docs.isEmpty then
    { answer := trim_str (guardrail_answer lang) ++ "\n\n" ++ disc,
      sources := [], session_id := some env.session_id, intent := some intent,
      tone := some tone, mode := some "guardrail",
      suggested_questions := suggested_next_questions intent question,
      disclaimer := some disc }
  else
    let meta_mode := if action_helper_mode question then "action_helper" else "normal"
    let context_text :=
      build_context docs history_text lang verbosity meta_mode env.max_doc_context_chars
    let gen := generate_answer env.gemini_enabled env.gen_models env.gen_call
    let answer0 :=
      match gen with
      | Except.ok r => r.1
      | Except.error e =>
        if is_quota_error e then gen_quota_answer lang else gen_fail_answer lang
    let model_used :=
      match gen with
      | Except.ok r => some r.2
      | Except.error _ => none
    let answer1 := postprocess_answer_by_verbosity answer0 verbosity
    let answer2 :=
      if disc ≠ "" && should_append_disclaimer intent answer1 then
        trim_str answer1 ++ "\n\n" ++ disc
      else answer1
    { answer := answer2,
      sources := build_sources intent qe docs,
      session_id := some env.session_id, intent := some intent, tone := some tone,
      mode := some "answer", category := none,
      suggested_questions := suggested_next_questions intent question,
      model_used := model_used, disclaimer := some disc }

/-- Scope, case-intake and retrieval block of _chat_impl, entered when no
FAQ rule fired. -/
noncomputable def chat_scope_stage (env : ChatEnv)
    (question intent tone lang verbosity : String) : ChatResponse :=
  if !(is_traffic_related question) then
    let disc := final_disclaimer lang
    { answer := trim_str (out_of_scope_answer lang) ++ "\n\n" ++ disc,
      sources := [], session_id := some env.session_id, intent := some intent,
      tone := some tone, mode := some "out_of_scope",
      suggested_questions := suggested_next_questions intent question,
      disclaimer := some disc }
  else
    let qs := case_intake_questions question
    if !qs.isEmpty && ((split_ws (norm_text question)).length ≤ 6 || intent == "butuh_pasal") then
      let disc := final_disclaimer lang
      { answer := trim_str (clarify_message tone lang qs) ++ "\n\n" ++ disc,
        sources := [], session_id := some env.session_id, intent := some intent,
        tone := some tone, mode := some "case_intake",
        suggested_questions := suggested_next_questions intent question,
        disclaimer := some disc }
    else
      let history_text := fetch_history_text env.history_msgs env.max_history_chars
      let r := chat_retrieval env
      compose_stage env question intent tone lang verbosity history_text r.1 r.2

/-- FAQ block of _chat_impl: a matching rule answers directly only for a
non-butuh_pasal intent on a traffic-related question. -/
noncomputable def chat_faq_stage (env : ChatEnv)
    (question intent tone lang verbosity : String) : ChatResponse :=
  match faq_match question with
  | some rule =>
    if intent != "butuh_pasal" && is_traffic_related question then
      let ans0 := if lang = "en" then rule.answer_en else rule.answer_id
      let disc := final_disclaimer lang
      let ans :=
        if disc ≠ "" && should_append_disclaimer intent ans0 then
          trim_str ans0 ++ "\n\n" ++ disc
        else ans0
      { answer := ans, sources := [], session_id := some env.session_id,
        intent := some intent, tone := some tone, mode := some "faq",
        category := some rule.category,
        suggested_questions := suggested_next_questions intent question,
        disclaimer := some disc }
    else chat_scope_stage env question intent tone lang verbosity
  | none => chat_scope_stage env question intent tone lang verbosity

/-- Embedding of _chat_impl after the rate-limit gate: empty-question
validation, language detection, prompt-injection and safety refusals,
smalltalk, preference handling, then intent, tone and verbosity and the
FAQ, scope, case-intake, retrieval and composition stages. -/
noncomputable def chat_core (env : ChatEnv) : ChatResponse :=
  let question := trim_str env.question
  if question = "" then
    { answer := "Silakan ajukan pertanyaan seputar lalu lintas atau hukum lalu lintas.",
      sources := [], session_id := env.req_session_id,
      suggested_questions :=
        ["Tanya soal ETLE/tilang", "Tanya soal SIM/STNK",
          "Tanya soal aturan helm & keselamatan"],
      disclaimer := some (final_disclaimer "id") }
  else
    let lang := detect_language question
    if looks_like_prompt_injection question then
      { answer := injection_answer lang, sources := [],
        session_id := env.req_session_id, mode := some "safety",
        intent := some "tips_umum", tone := some "formal",
        suggested_questions := suggested_next_questions "tips_umum" question,
        disclaimer := some (final_disclaimer lang) }
    else
      match safety_refuse_or_redirect question lang with
      | some sb =>
        { answer := sb, sources := [], session_id := env.req_session_id,
          mode := some "safety", intent := some "tips_umum", tone := some "formal",
          suggested_questions := suggested_next_questions "tips_umum" question,
          disclaimer := some (final_disclaimer lang) }
      | none =>
        match smalltalk_match question with
        | some sk =>
          let patch := parse_pref_patch question
          let prefs :=
            if !(prefs_is_empty patch) then prefs_update env.prefs0 patch else env.prefs0
          let tone := apply_tone_pref prefs (detect_tone question)
          { answer := smalltalk_answer sk lang, sources := [],
            session_id := some env.session_id, intent := some "smalltalk",
            tone := some tone, mode := some "smalltalk",
            suggested_questions := suggested_next_questions "smalltalk" question,
            disclaimer := some (final_disclaimer lang) }
        | none =>
          let patch := parse_pref_patch question
          let prefs :=
            if !(prefs_is_empty patch) then prefs_update env.prefs0 patch else env.prefs0
          if is_preference_only question patch then
            let tone := apply_tone_pref prefs (detect_tone question)
            let vb := prefs.verbosity.getD "normal"
            { answer := pref_only_answer vb lang, sources := [],
              session_id := some env.session_id, intent := some "meta",
              tone := some tone, mode := some "preference_set",
              category := some "preferences",
              suggested_questions := suggested_next_questions "meta" question,
              disclaimer := some (final_disclaimer lang) }
          else
            let intent := predict_intent env.intent_model question
            let tone := apply_tone_pref prefs (detect_tone question)
            let verbosity := compute_verbosity question intent prefs
            chat_faq_stage env question intent tone lang verbosity

/-- Embedding of _chat_impl including the rate-limit gate: a client over
budget is rejected with status 429 before any other work. -/
noncomputable def chat_impl (env : ChatEnv) : Except ℕ ChatResponse :=
  if (rate_limit_step env.max_requests_per_minute env.rate_state env.now).1 then
    Except.ok (chat_core env)
  else Except.error 429

/-- States written back by the rate limiter along a list of request times
for one client. -/
def rate_limit_states (N : ℕ) : Option (ℚ × ℕ) → List ℚ → List (ℚ × ℕ)
  | _, [] => []
  | st, t :: ts =>
    let r := rate_limit_step N st t
    r.2 :: rate_limit_states N (some r.2) ts

/-- Number of accepted requests whose time falls in the rolling window
of 60 seconds starting at t0. -/
def accepted_in_window (runs : List (ℚ × Bool)) (t0 : ℚ) : ℕ :=
  (runs.filter (fun p => p.2 && decide (t0 ≤ p.1) && decide (p.1 < t0 + 60))).length

/-- Retention test of the rebuild loop: non-empty body and non-empty
embedding vector. -/
def rebuild_keeps (embed : String → Except String (List ℚ)) (a : Article) : Bool :=
  !(article_isi a == "") && !(rebuild_vec embed a).isEmpty

/-- Index entry the rebuild loop writes for one retained article. -/
def rebuild_doc_of (embed : String → Except String (List ℚ)) (a : Article) : Doc :=
  ⟨toString a.id, article_judul_rebuild a, article_isi a, rebuild_vec embed a⟩

/-- Retention test of the resumable build loop: not already indexed by id
and non-empty body. -/
def resume_keeps (ids : List String) (a : Article) : Bool :=
  !(ids.contains (toString a.id)) && !(article_isi a == "")

/-- Index entry the resumable build loop writes for one fresh article. -/
def resume_doc_of (embed : String → List ℚ) (a : Article) : Doc :=
  ⟨toString a.id, article_judul_build a, article_isi a, embed (article_isi a)⟩

/-- Article fixtures: two distinct rows carrying an identical
(law, article, heading, legal text) tuple, and a third distinct one. -/
def artA : Article :=
  ⟨1, "UU 22 Tahun 2009", "Pasal 291", some "Helm", some "Wajib memakai helm SNI",
    none, [], "berlaku"⟩

/-- Duplicate-tuple fixture differing from artA only in its id. -/
def artB : Article :=
  ⟨2, "UU 22 Tahun 2009", "Pasal 291", some "Helm", some "Wajib memakai helm SNI",
    none, [], "berlaku"⟩

/-- Third article fixture with a distinct tuple. -/
def artC : Article :=
  ⟨3, "UU 22 Tahun 2009", "Pasal 106", some "Sabuk", some "Wajib sabuk pengaman",
    none, [], "berlaku"⟩

/-- Provider fixture returning the same one-component vector for every
text. -/
def embed_one : String → Except String (List ℚ) := fun _ => Except.ok [1]

/-- Total provider fixture for the resumable build. -/
def embed_total_one : String → List ℚ := fun _ => [1]

/-- Persisted-index fixtures matching artA and artB by id. -/
def exdoc1 : Doc := ⟨"1", article_judul_build artA, article_isi artA, [1]⟩

/-- Second persisted-index fixture. -/
def exdoc2 : Doc := ⟨"2", article_judul_build artB, article_isi artB, [1]⟩

/-- Request environment fixture whose embedding provider is disabled, so
retrieval yields nothing. -/
noncomputable def env_guard : ChatEnv :=
  { question := "pasal berapa yang mengatur kewajiban memakai helm bagi pengendara motor di jalan raya",
    req_session_id := none, now := 0, rate_state := none,
    max_requests_per_minute := 60, session_id := 1, prefs0 := {},
    history_msgs := [], intent_model := none, index := [],
    docs_cache := fresh_docs_cache,
    embed_fn := fun _ => Except.error "Gemini tidak aktif",
    gemini_enabled := false, gen_models := ["gemini-2.5-flash"],
    gen_call := fun _ => Except.error "Gemini tidak aktif",
    rag_top_k := 3, rag_min_score := 3 / 10, max_history_chars := 1600,
    max_doc_context_chars := 2400 }

/-- Request environment fixture whose client is over budget: sixty
requests already accepted in a window that started moments ago. -/
noncomputable def env_rate_limited : ChatEnv :=
  { env_guard with rate_state := some (0, 60), now := 30 }

/-- Cache fixture at capacity, with two live entries of distinct expiry. -/
def ex_ttl_cache : TTLCache String ℕ := ⟨10, 2, [("a", 5, 1), ("b", 3, 2)]⟩

@[simp] theorem dot_norms_nil_left (v : List ℚ) : dot_norms [] v = (0, 0, 0) := by
  cases v <;> rfl

@[simp] theorem dot_norms_nil_right (v : List ℚ) : dot_norms v [] = (0, 0, 0) := by
  cases v <;> rfl

@[simp] theorem dot_norms_cons (a b : ℚ) (v1 v2 : List ℚ) :
    dot_norms (a :: v1) (b :: v2) =
      (a * b + (dot_norms v1 v2).1, a * a + (dot_norms v1 v2).2.1,
        b * b + (dot_norms v1 v2).2.2) := rfl

theorem dot_norms_comm (v1 v2 : List ℚ) :
    dot_norms v2 v1 = ((dot_norms v1 v2).1, (dot_norms v1 v2).2.2, (dot_norms v1 v2).2.1) := by
  induction v1 generalizing v2 with
  | nil => simp
  | cons a v1 ih =>
    cases v2 with
    | nil => simp
    | cons b v2 => simp [ih v2, mul_comm]

@[simp] theorem dot_norms_self (v : List ℚ) :
    dot_norms v v = (sq_sum v, sq_sum v, sq_sum v) := by
  induction v with
  | nil => simp [sq_sum]
  | cons a v ih => simp [ih, sq_sum]

theorem sq_sum_nonneg (v : List ℚ) : 0 ≤ sq_sum v := by
  induction v with
  | nil => simp [sq_sum]
  | cons a v ih =>
    simp only [sq_sum]
    nlinarith [mul_self_nonneg a]

theorem sq_sum_eq_zero (v : List ℚ) :
    sq_sum v = 0 ↔ ∀ x ∈ v, x = 0 := by
  induction v with
  | nil => simp [sq_sum]
  | cons a v ih =>
    simp only [sq_sum, List.mem_cons]
    constructor
    · intro h
      have ha : a * a = 0 ∧ sq_sum v = 0 := by
        constructor <;> nlinarith [mul_self_nonneg a, sq_sum_nonneg v]
      have ha0 : a = 0 := by nlinarith [ha.1]
      intro x hx
      rcases hx with rfl | hx
      · exact ha0
      · exact (ih.mp ha.2) x hx
    · intro h
      have ha : a = 0 := h a (Or.inl rfl)
      have hv : sq_sum v = 0 := ih.mpr (fun x hx => h x (Or.inr hx))
      simp [ha, hv]

@[simp] theorem threshold_filter_nil (ms : ℝ) : threshold_filter ms [] = [] := rfl

theorem threshold_filter_cons (ms : ℝ) (sd : ℝ × Doc) (rest : List (ℝ × Doc)) :
    threshold_filter ms (sd :: rest) =
      if ms ≤ sd.1 then ⟨sd.2, sd.1⟩ :: threshold_filter ms rest
      else threshold_filter ms rest := rfl

theorem threshold_filter_eq_filter_map (ms : ℝ) (l : List (ℝ × Doc)) :
    threshold_filter ms l =
      (l.filter (fun sd => decide (ms ≤ sd.1))).map (fun sd => ⟨sd.2, sd.1⟩) := by
  induction l with
  | nil => rfl
  | cons sd rest ih =>
    by_cases h : ms ≤ sd.1 <;>
      simp [threshold_filter_cons, List.filter_cons, h, ih]

theorem threshold_filter_length_le (ms : ℝ) (l : List (ℝ × Doc)) :
    (threshold_filter ms l).length ≤ l.length := by
  rw [threshold_filter_eq_filter_map, List.length_map]
  exact List.length_filter_le _ _

theorem threshold_filter_score {ms : ℝ} {l : List (ℝ × Doc)} {x : ScoredDoc}
    (hx : x ∈ threshold_filter ms l) : ms ≤ x.score := by
  rw [threshold_filter_eq_filter_map] at hx
  rcases List.mem_map.mp hx with ⟨sd, hsd, rfl⟩
  have hd := (List.mem_filter.mp hsd).2
  simpa using of_decide_eq_true hd

theorem threshold_filter_sorted {ms : ℝ} {l : List (ℝ × Doc)}
    (hl : List.Sorted score_ge l) : sorted_desc (threshold_filter ms l) := by
  rw [threshold_filter_eq_filter_map]
  exact List.Pairwise.map _ (fun a b h => h) (hl.filter _)

theorem threshold_filter_all {ms : ℝ} {l : List (ℝ × Doc)}
    (h : ∀ x ∈ l, ms ≤ x.1) : (threshold_filter ms l).length = l.length := by
  rw [threshold_filter_eq_filter_map, List.length_map,
    List.filter_eq_self.mpr (fun x hx => decide_eq_true (h x hx))]

/-- In a list sorted by non-increasing score that contains at least t
candidates reaching the threshold, every one of the first t candidates
reaches the threshold. -/
theorem sorted_take_all_ge (ms : ℝ) :
    ∀ (l : List (ℝ × Doc)) (t : ℕ), List.Sorted score_ge l →
      t ≤ l.countP (fun sd => decide (ms ≤ sd.1)) →
      ∀ x ∈ l.take t, ms ≤ x.1 := by
  intro l
  induction l with
  | nil => intro t _ _ x hx; simp at hx
  | cons sd rest ih =>
    intro t hs hc x hx
    cases t with
    | zero => simp at hx
    | succ s =>
      have hhead : ms ≤ sd.1 := by
        by_contra hlt
        have hrest : ∀ y ∈ rest, ¬ ms ≤ y.1 := by
          intro y hy hy'
          exact hlt (le_trans hy' (List.rel_of_sorted_cons hs y hy))
        have : (sd :: rest).countP (fun sd => decide (ms ≤ sd.1)) = 0 := by
          rw [List.countP_eq_zero]
          intro y hy
          rcases List.mem_cons.mp hy with rfl | hy
          · simpa using hlt
          · simpa using hrest y hy
        omega
      rcases List.mem_cons.mp (by simpa using hx : x ∈ sd :: rest.take s) with rfl | hx'
      · exact hhead
      · refine ih s hs.of_cons ?_ x hx'
        have := List.countP_cons (fun sd => decide (ms ≤ sd.1)) sd rest
        simp only [hhead, decide_eq_true_eq, if_pos] at this
        omega

theorem cosine_self_eq_one {v : List ℚ} (hv : ∃ x ∈ v, x ≠ 0) :
    cosine_similarity v v = 1 := by
  obtain ⟨x, hx, hx0⟩ := hv
  have hne : v.isEmpty = false := by
    cases v
    · simp at hx
    · rfl
  have hsq : sq_sum v ≠ 0 := fun h => hx0 ((sq_sum_eq_zero v).mp h x hx)
  have hposR : (0 : ℝ) < ((sq_sum v : ℚ) : ℝ) := by
    exact_mod_cast lt_of_le_of_ne (sq_sum_nonneg v) (Ne.symm hsq)
  simp only [cosine_similarity, hne, dot_norms_self, bne_self_eq_false, Bool.or_false,
    Bool.or_self, Bool.false_or]
  rw [if_neg (by simp), if_neg (by simp [hsq]),
    Real.mul_self_sqrt hposR.le, div_self (ne_of_gt hposR)]

theorem dot_norms_n2_zero {w : List ℚ} (hw : ∀ x ∈ w, x = 0) (v : List ℚ) :
    (dot_norms v w).2.2 = 0 := by
  induction v generalizing w with
  | nil => simp
  | cons a v ih =>
    cases w with
    | nil => simp
    | cons b w =>
      have hb : b = 0 := hw b (by simp)
      have hw' : ∀ x ∈ w, x = 0 := fun x hx => hw x (by simp [hx])
      simp [ih hw', hb]

theorem cosine_zero_right (v : List ℚ) {w : List ℚ} (hw : ∀ x ∈ w, x = 0) :
    cosine_similarity v w = 0 := by
  simp only [cosine_similarity]
  by_cases hg : (v.isEmpty || w.isEmpty || v.length != w.length) = true
  · rw [if_pos hg]
  · rw [if_neg hg, if_pos]
    simp [dot_norms_n2_zero hw v]

theorem cosine_symm (a b : List ℚ) :
    cosine_similarity a b = cosine_similarity b a := by
  have hlen : (b.length = a.length) = (a.length = b.length) := propext ⟨Eq.symm, Eq.symm⟩
  simp [cosine_similarity, dot_norms_comm a b, Bool.or_comm, mul_comm, hlen]

theorem cosine_len_mismatch {v w : List ℚ} (h : v.length ≠ w.length) :
    cosine_similarity v w = 0 := by
  simp [cosine_similarity, bne, h]

theorem cosine_empty (v w : List ℚ) (h : (v.isEmpty || w.isEmpty) = true) :
    cosine_similarity v w = 0 := by
  rcases Bool.or_eq_true_iff.mp h with h' | h' <;> simp [cosine_similarity, h']

theorem si_cosine_self_eq_one {v : List ℚ} (hv : ∃ x ∈ v, x ≠ 0) :
    SearchIndex.cosine_similarity v v = 1 := by
  obtain ⟨x, hx, hx0⟩ := hv
  have hsq : sq_sum v ≠ 0 := fun h => hx0 ((sq_sum_eq_zero v).mp h x hx)
  have hposR : (0 : ℝ) < ((sq_sum v : ℚ) : ℝ) := by
    exact_mod_cast lt_of_le_of_ne (sq_sum_nonneg v) (Ne.symm hsq)
  simp only [SearchIndex.cosine_similarity, dot_norms_self, Bool.or_self]
  rw [if_neg (by simp [hsq]), Real.mul_self_sqrt hposR.le, div_self (ne_of_gt hposR)]

theorem si_cosine_zero_right (v : List ℚ) {w : List ℚ} (hw : ∀ x ∈ w, x = 0) :
    SearchIndex.cosine_similarity v w = 0 := by
  simp [SearchIndex.cosine_similarity, dot_norms_n2_zero hw v]

theorem si_cosine_symm (a b : List ℚ) :
    SearchIndex.cosine_similarity a b = SearchIndex.cosine_similarity b a := by
  simp [SearchIndex.cosine_similarity, dot_norms_comm a b, Bool.or_comm, mul_comm]

theorem cosine_one_one : cosine_similarity [1] [1] = 1 :=
  cosine_self_eq_one ⟨1, by simp, one_ne_zero⟩

theorem search_top_k_eval_one (ms : ℝ) (hms : ms ≤ 1) (k : ℤ) :
    (search_top_k [doc1] fresh_docs_cache 0 [1] k ms).1 = [⟨doc1, 1⟩] := by
  have h1 : (1 : ℤ) ≤ max k 1 := le_max_right k 1
  have htake : ∀ l : List (ℝ × Doc), l.length = 1 → l.take (max k 1).toNat = l := by
    intro l hl
    apply List.take_of_length_le
    rw [hl]
    omega
  simp only [search_top_k, TTLCache.get, fresh_docs_cache, dict_get, List.isEmpty,
    Bool.or_self, Bool.or_false, score_all, List.map, doc1, cosine_one_one]
  rw [htake _ (by simp [List.insertionSort, List.orderedInsert])]
  simp [List.insertionSort, List.orderedInsert, threshold_filter_cons, hms, cosine_one_one]

/-- Claim C1, as stated, is false: with a one-document index, a matching
one-component query embedding, k = 0 and min_score = 0, search_top_k
returns one scored document even though the claim bounds the result
length by k = 0 — the source truncates to max(k, 1), not to k. -/
theorem search_top_k_k_zero_counterexample :
    (search_top_k [doc1] fresh_docs_cache 0 [1] 0 0).1.length = 1 ∧
    ¬ (((search_top_k [doc1] fresh_docs_cache 0 [1] 0 0).1.length : ℤ) ≤ 0) := by
  rw [search_top_k_eval_one 0 zero_le_one 0]
  norm_num

/-- Claim C1 (amended): on a call that misses the docs cache, search_top_k
returns at most max(k, 1) scored documents — for a non-positive k the
bound is one result, not k — each with score at least min_score, sorted in
non-increasing score order; truncation to the top max(k, 1) happens before
the threshold filter, so whenever at least max(k, 1) candidates of the
scoring pass reach min_score the result holds exactly max(k, 1) of them
and every further qualifying candidate is dropped; and the result is empty
whenever the index or the query embedding is empty. -/
theorem search_top_k_contract (index : List Doc) (cache : DocsCache) (now : ℚ)
    (qe : List ℚ) (k : ℤ) (ms : ℝ)
    (hmiss : (TTLCache.get cache now (qe.take 32)).1 = none) :
    (search_top_k index cache now qe k ms).1.length ≤ (max k 1).toNat ∧
    (∀ x ∈ (search_top_k index cache now qe k ms).1, ms ≤ x.score) ∧
    sorted_desc (search_top_k index cache now qe k ms).1 ∧
    (index = [] ∨ qe = [] → (search_top_k index cache now qe k ms).1 = []) ∧
    (qe ≠ [] →
      (max k 1).toNat ≤ (score_all index qe).countP (fun sd => decide (ms ≤ sd.1)) →
      (search_top_k index cache now qe k ms).1.length = (max k 1).toNat) := by
  have hone : (1 : ℕ) ≤ (max k 1).toNat := by
    have := le_max_right k 1
    omega
  by_cases hempty : (index.isEmpty || qe.isEmpty) = true
  · have hres : (search_top_k index cache now qe k ms).1 = [] := by
      simp [search_top_k, hempty]
    refine ⟨by simp [hres], by simp [hres], by simp [hres, sorted_desc], fun _ => hres, ?_⟩
    intro hq hcount
    exfalso
    have hidx : index = [] := by
      rcases Bool.or_eq_true_iff.mp hempty with h | h
      · exact List.isEmpty_iff.mp h
      · exact absurd (List.isEmpty_iff.mp h) hq
    rw [hidx] at hcount
    simp [score_all] at hcount
  · rcases hg : TTLCache.get cache now (qe.take 32) with ⟨o, c2⟩
    have ho : o = none := by rw [hg] at hmiss; exact hmiss
    subst ho
    have hres : (search_top_k index cache now qe k ms).1 =
        threshold_filter ms
          ((List.insertionSort score_ge (score_all index qe)).take (max k 1).toNat) := by
      rw [search_top_k, if_neg (by simp [hempty])]
      simp only [hg]
    rw [hres]
    set S := List.insertionSort score_ge (score_all index qe) with hS
    have hsorted : List.Sorted score_ge S := List.sorted_insertionSort score_ge _
    have hsorted_take : List.Sorted score_ge (S.take (max k 1).toNat) :=
      List.Pairwise.sublist (List.take_sublist _ _) hsorted
    refine ⟨?_, ?_, ?_, ?_, ?_⟩
    · exact le_trans (threshold_filter_length_le _ _)
        (le_trans (List.length_take_le _ _) (le_refl _))
    · exact fun x hx => threshold_filter_score hx
    · exact threshold_filter_sorted hsorted_take
    · intro h
      exfalso
      rcases h with h | h <;> simp [h] at hempty
    · intro _ hcount
      have hcS : (max k 1).toNat ≤ S.countP (fun sd => decide (ms ≤ sd.1)) := by
        rwa [(List.perm_insertionSort score_ge (score_all index qe)).countP_eq]
      have hall : ∀ x ∈ S.take (max k 1).toNat, ms ≤ x.1 :=
        sorted_take_all_ge ms S (max k 1).toNat hsorted hcS
      rw [threshold_filter_all hall, List.length_take]
      have hlen : (max k 1).toNat ≤ S.length := by
        calc (max k 1).toNat ≤ S.countP (fun sd => decide (ms ≤ sd.1)) := hcS
          _ ≤ S.length := List.countP_le_length _
      omega

/-- Witness for the amended search contract at a concrete cache-missing
call. -/
theorem search_top_k_contract_witness :
    (TTLCache.get fresh_docs_cache 0 ([(1 : ℚ)].take 32)).1 = none ∧
    (search_top_k [doc1] fresh_docs_cache 0 [1] 2 0).1.length ≤ ((max 2 1 : ℤ)).toNat ∧
    (∀ x ∈ (search_top_k [doc1] fresh_docs_cache 0 [1] 2 0).1, (0 : ℝ) ≤ x.score) := by
  refine ⟨rfl, ?_, ?_⟩
  · exact (search_top_k_contract [doc1] fresh_docs_cache 0 [1] 2 0 rfl).1
  · exact (search_top_k_contract [doc1] fresh_docs_cache 0 [1] 2 0 rfl).2.1

theorem dict_get_assign_self {κ α : Type} [DecidableEq κ] (k : κ) (v : α) :
    ∀ d : List (κ × α), dict_get k (dict_assign k v d) = some v := by
  intro d
  induction d with
  | nil => simp [dict_assign, dict_get]
  | cons p rest ih =>
    rcases p with ⟨k', v'⟩
    by_cases h : k' = k <;> simp [dict_assign, dict_get, h, ih]

theorem ttl_get_after_set {κ α : Type} [DecidableEq κ] (c : TTLCache κ α) (now : ℚ)
    (k : κ) (v : α) (httl : 0 ≤ c.ttl) : ((c.set now k v).get now k).1 = some v := by
  have hnot : ¬ (now + c.ttl < now) := by linarith
  simp [TTLCache.set, TTLCache.get, dict_get_assign_self, hnot]

theorem ttl_get_expired {κ α : Type} [DecidableEq κ] (c : TTLCache κ α) (s now : ℚ)
    (k : κ) (v : α) (h : s + c.ttl < now) : ((c.set s k v).get now k).1 = none := by
  simp [TTLCache.set, TTLCache.get, dict_get_assign_self, h]

theorem ttl_get_not_expired {κ α : Type} [DecidableEq κ] (c : TTLCache κ α) (now : ℚ)
    (k : κ) {v : α} (h : (c.get now k).1 = some v) :
    ∃ exp, dict_get k c.data = some (exp, v) ∧ now ≤ exp := by
  unfold TTLCache.get at h
  rcases hg : dict_get k c.data with _ | ⟨exp, val⟩
  · rw [hg] at h; simp at h
  · rw [hg] at h
    by_cases hexp : exp < now
    · simp [hexp] at h
    · simp only [hexp, if_false, reduceIte] at h
      simp only [Option.some.injEq] at h
      exact ⟨exp, by rw [h], le_of_not_lt hexp⟩

theorem oldest_key_aux_spec {κ α : Type} :
    ∀ (data : List (κ × ℚ × α)) (k1 : κ) (e1 : ℚ),
      ∃ k0 e0, oldest_key_aux (some (k1, e1)) data = some (k0, e0) ∧
        ((k0 = k1 ∧ e0 = e1) ∨ ∃ v0, (k0, e0, v0) ∈ data) ∧
        e0 ≤ e1 ∧ (∀ p ∈ data, e0 ≤ p.2.1) := by
  intro data
  induction data with
  | nil => intro k1 e1; exact ⟨k1, e1, rfl, Or.inl ⟨rfl, rfl⟩, le_refl _, by simp⟩
  | cons p rest ih =>
    rcases p with ⟨k, exp, v⟩
    intro k1 e1
    by_cases hlt : exp < e1
    · obtain ⟨k0, e0, heq, hmem, hle, hall⟩ := ih k exp
      refine ⟨k0, e0, ?_, ?_, ?_, ?_⟩
      · simpa [oldest_key_aux, hlt] using heq
      · rcases hmem with ⟨rfl, rfl⟩ | ⟨v0, hv0⟩
        · exact Or.inr ⟨v, by simp⟩
        · exact Or.inr ⟨v0, by simp [hv0]⟩
      · linarith
      · intro q hq
        rcases List.mem_cons.mp hq with rfl | hq
        · exact hle
        · exact hall q hq
    · obtain ⟨k0, e0, heq, hmem, hle, hall⟩ := ih k1 e1
      refine ⟨k0, e0, ?_, ?_, hle, ?_⟩
      · simpa [oldest_key_aux, hlt] using heq
      · rcases hmem with h | ⟨v0, hv0⟩
        · exact Or.inl h
        · exact Or.inr ⟨v0, by simp [hv0]⟩
      · intro q hq
        rcases List.mem_cons.mp hq with rfl | hq
        · simp only []
          linarith [le_of_not_lt hlt]
        · exact hall q hq

theorem oldest_key_aux_none_spec {κ α : Type} (data : List (κ × ℚ × α))
    (hne : data ≠ []) :
    ∃ k0 e0 v0, oldest_key_aux none data = some (k0, e0) ∧ (k0, e0, v0) ∈ data ∧
      (∀ p ∈ data, e0 ≤ p.2.1) := by
  rcases data with _ | ⟨⟨k, exp, v⟩, rest⟩
  · exact absurd rfl hne
  · obtain ⟨k0, e0, heq, hmem, hle, hall⟩ := oldest_key_aux_spec rest k exp
    have hstep : oldest_key_aux (none : Option (κ × ℚ)) ((k, exp, v) :: rest) =
        oldest_key_aux (some (k, exp)) rest := rfl
    rcases hmem with ⟨rfl, rfl⟩ | ⟨v0, hv0⟩
    · exact ⟨k0, e0, v, by rw [hstep, heq], by simp, fun q hq => by
        rcases List.mem_cons.mp hq with rfl | hq
        · exact hle
        · exact hall q hq⟩
    · exact ⟨k0, e0, v0, by rw [hstep, heq], by simp [hv0], fun q hq => by
        rcases List.mem_cons.mp hq with rfl | hq
        · exact hle
        · exact hall q hq⟩

theorem ttl_set_evicts_oldest {κ α : Type} [DecidableEq κ] (c : TTLCache κ α)
    (now : ℚ) (key : κ) (v : α) (hcap : c.max_items ≤ c.data.length)
    (hne : c.data ≠ []) :
    ∃ k0 e0 v0, (k0, e0, v0) ∈ c.data ∧ (∀ p ∈ c.data, e0 ≤ p.2.1) ∧
      (c.set now key v).data = dict_assign key (now + c.ttl, v) (dict_pop k0 c.data) := by
  obtain ⟨k0, e0, v0, heq, hmem, hall⟩ := oldest_key_aux_none_spec c.data hne
  exact ⟨k0, e0, v0, hmem, hall, by simp [TTLCache.set, hcap, heq]⟩

theorem build_sources_ne {intent : String} {qe : List ℚ} {docs : List ScoredDoc}
    (h : build_sources intent qe docs ≠ []) :
    intent = "butuh_pasal" ∧ qe ≠ [] ∧ docs ≠ [] ∧
      build_sources intent qe docs = docs.map (source_doc_of qe) := by
  unfold build_sources at h ⊢
  cases hbi : (intent != "butuh_pasal") with
  | true => rw [if_pos (by simp [hbi])] at h; exact absurd rfl h
  | false =>
    cases hbq : qe.isEmpty with
    | true => rw [if_pos (by simp [hbi, hbq])] at h; exact absurd rfl h
    | false =>
      cases hbd : docs.isEmpty with
      | true => rw [if_pos (by simp [hbi, hbq, hbd])] at h; exact absurd rfl h
      | false =>
        rw [if_neg (by simp [hbi, hbq, hbd])] at h ⊢
        have hbeq : intent = "butuh_pasal" := by
          by_contra hne
          have hx : (intent != "butuh_pasal") = true := bne_iff_ne.mpr hne
          rw [hx] at hbi
          exact absurd hbi (by decide)
        refine ⟨hbeq, ?_, ?_, rfl⟩
        · intro hh
          subst hh
          simp [List.isEmpty] at hbq
        · intro hh
          subst hh
          simp [List.isEmpty] at hbd

theorem build_sources_pos (qe : List ℚ) (docs : List ScoredDoc)
    (hqe : qe ≠ []) (hd : docs ≠ []) :
    build_sources "butuh_pasal" qe docs = docs.map (source_doc_of qe) := by
  have h2 : qe.isEmpty = false := by
    cases qe
    · exact absurd rfl hqe
    · rfl
  have h3 : docs.isEmpty = false := by
    cases docs
    · exact absurd rfl hd
    · rfl
  unfold build_sources
  rw [if_neg]
  simp [h2, h3]

theorem compose_stage_sources (env : ChatEnv)
    (question intent tone lang verbosity hist : String)
    (qe : List ℚ) (docs : List ScoredDoc) :
    (compose_stage env question intent tone lang verbosity hist qe docs).sources =
      build_sources intent qe docs := by
  simp only [compose_stage]
  split
  · next hg =>
    have hd : docs.isEmpty = true := by
      have hx := hg
      simp only [Bool.and_eq_true] at hx
      exact hx.2
    simp [build_sources, hd]
  · rfl

theorem compose_stage_intent (env : ChatEnv)
    (question intent tone lang verbosity hist : String)
    (qe : List ℚ) (docs : List ScoredDoc) :
    (compose_stage env question intent tone lang verbosity hist qe docs).intent =
      some intent := by
  simp only [compose_stage]
  split <;> rfl

theorem compose_stage_guardrail (env : ChatEnv)
    (question tone lang verbosity hist : String) (qe : List ℚ) :
    compose_stage env question "butuh_pasal" tone lang verbosity hist qe [] =
      { answer := trim_str (guardrail_answer lang) ++ "\n\n" ++ final_disclaimer lang,
        sources := [], session_id := some env.session_id,
        intent := some "butuh_pasal", tone := some tone, mode := some "guardrail",
        suggested_questions := suggested_next_questions "butuh_pasal" question,
        disclaimer := some (final_disclaimer lang) } := by
  simp only [compose_stage]
  rw [if_pos (by decide)]

theorem chat_scope_stage_cases (env : ChatEnv)
    (question intent tone lang verbosity : String) :
    (chat_scope_stage env question intent tone lang verbosity).sources = [] ∨
    ((chat_scope_stage env question intent tone lang verbosity).intent = some intent ∧
      (chat_scope_stage env question intent tone lang verbosity).sources =
        build_sources intent (chat_retrieval env).1 (chat_retrieval env).2) := by
  simp only [chat_scope_stage]
  split
  · exact Or.inl rfl
  · split
    · exact Or.inl rfl
    · exact Or.inr ⟨compose_stage_intent _ _ _ _ _ _ _ _ _,
        compose_stage_sources _ _ _ _ _ _ _ _ _⟩

theorem chat_faq_stage_cases (env : ChatEnv)
    (question intent tone lang verbosity : String) :
    (chat_faq_stage env question intent tone lang verbosity).sources = [] ∨
    ((chat_faq_stage env question intent tone lang verbosity).intent = some intent ∧
      (chat_faq_stage env question intent tone lang verbosity).sources =
        build_sources intent (chat_retrieval env).1 (chat_retrieval env).2) := by
  simp only [chat_faq_stage]
  split
  · split
    · exact Or.inl rfl
    · exact chat_scope_stage_cases env question intent tone lang verbosity
  · exact chat_scope_stage_cases env question intent tone lang verbosity

theorem chat_core_cases (env : ChatEnv) :
    (chat_core env).sources = [] ∨
    (∃ i, (chat_core env).intent = some i ∧
      (chat_core env).sources =
        build_sources i (chat_retrieval env).1 (chat_retrieval env).2) := by
  simp only [chat_core]
  split
  · exact Or.inl rfl
  · split
    · exact Or.inl rfl
    · split
      · exact Or.inl rfl
      · split
        · exact Or.inl rfl
        · split
          · exact Or.inl rfl
          · rcases chat_faq_stage_cases env (trim_str env.question)
              (predict_intent env.intent_model (trim_str env.question))
              (apply_tone_pref
                (if !(prefs_is_empty (parse_pref_patch (trim_str env.question))) then
                  prefs_update env.prefs0 (parse_pref_patch (trim_str env.question))
                else env.prefs0)
                (detect_tone (trim_str env.question)))
              (detect_language (trim_str env.question))
              (compute_verbosity (trim_str env.question)
                (predict_intent env.intent_model (trim_str env.question))
                (if !(prefs_is_empty (parse_pref_patch (trim_str env.question))) then
                  prefs_update env.prefs0 (parse_pref_patch (trim_str env.question))
                else env.prefs0)) with h | ⟨h1, h2⟩
            · exact Or.inl h
            · exact Or.inr ⟨_, h1, h2⟩

/-- Claim C2: the sources list of a chat response is empty unless the
classified intent is butuh_pasal, the query embedding is non-empty and
retrieval returned at least one document, in which case it is exactly the
retrieved documents, each carrying its id, title, body and score; the
composition stage with intent butuh_pasal and at least one retrieved
document cites exactly those documents; and with intent butuh_pasal and
no retrieved documents it returns the guardrail clarification message
with an empty sources list. -/
theorem chat_sources_grounded (env : ChatEnv) :
    ((chat_core env).sources ≠ [] →
      (chat_core env).intent = some "butuh_pasal" ∧
      (chat_retrieval env).1 ≠ [] ∧ (chat_retrieval env).2 ≠ [] ∧
      (chat_core env).sources =
        (chat_retrieval env).2.map (source_doc_of (chat_retrieval env).1)) ∧
    (∀ question tone lang verbosity hist qe docs, qe ≠ [] → docs ≠ [] →
      (compose_stage env question "butuh_pasal" tone lang verbosity hist qe docs).sources =
        docs.map (source_doc_of qe)) ∧
    (∀ question tone lang verbosity hist qe,
      compose_stage env question "butuh_pasal" tone lang verbosity hist qe [] =
        { answer := trim_str (guardrail_answer lang) ++ "\n\n" ++ final_disclaimer lang,
          sources := [], session_id := some env.session_id,
          intent := some "butuh_pasal", tone := some tone, mode := some "guardrail",
          suggested_questions := suggested_next_questions "butuh_pasal" question,
          disclaimer := some (final_disclaimer lang) }) := by
  refine ⟨?_, ?_, ?_⟩
  · intro h
    rcases chat_core_cases env with h0 | ⟨i, hi, hs⟩
    · exact absurd h0 h
    · rw [hs] at h
      obtain ⟨h1, h2, h3, h4⟩ := build_sources_ne h
      subst h1
      exact ⟨hi, h2, h3, by rw [hs, h4]⟩
  · intro question tone lang verbosity hist qe docs hqe hd
    rw [compose_stage_sources, build_sources_pos qe docs hqe hd]
  · intro question tone lang verbosity hist qe
    exact compose_stage_guardrail env question tone lang verbosity hist qe

/-- Witness for the grounding contract: the butuh_pasal composition cites
exactly the retrieved document, and with no retrieved documents it
returns the guardrail response with empty sources. -/
theorem chat_sources_grounded_witness :
    (compose_stage env_guard env_guard.question "butuh_pasal" "formal" "id" "normal" ""
        [1] [⟨doc1, 1⟩]).sources = [⟨doc1, 1⟩].map (source_doc_of [1]) ∧
    (compose_stage env_guard env_guard.question "butuh_pasal" "formal" "id" "normal" ""
        [] []).sources = [] := by
  have h := chat_sources_grounded env_guard
  refine ⟨h.2.1 env_guard.question "formal" "id" "normal" "" [1] [⟨doc1, 1⟩]
    (by simp) (by simp), ?_⟩
  rw [h.2.2 env_guard.question "formal" "id" "normal" "" []]

/-- Claim C3, as stated, is false: the source has no nearest-example
stage.  With no trained model loaded, a question with no trigger phrase
whose token set fully overlaps a stored training example (overlap score 1,
at least the 0.25 threshold) is classified tips_umum by the source, while
the layered fallback the claim describes returns the example label. -/
theorem predict_intent_no_nearest_counterexample :
    predict_intent none "kenapa helm wajib dipakai" = "tips_umum" ∧
    predict_intent_spec none [("kenapa helm wajib dipakai", "aturan_helm")] (1 / 4)
      "kenapa helm wajib dipakai" = "aturan_helm" ∧
    predict_intent none "kenapa helm wajib dipakai" ≠
      predict_intent_spec none [("kenapa helm wajib dipakai", "aturan_helm")] (1 / 4)
        "kenapa helm wajib dipakai" := by
  have h1 : predict_intent none "kenapa helm wajib dipakai" = "tips_umum" := by decide
  have htok : (spec_tokenize "kenapa helm wajib dipakai").dedup =
      ["kenapa", "helm", "wajib", "dipakai"] := by decide
  have hfil : (["kenapa", "helm", "wajib", "dipakai"] : List String).filter
      (fun t => t ∈ (["kenapa", "helm", "wajib", "dipakai"] : List String)) =
      ["kenapa", "helm", "wajib", "dipakai"] := by decide
  have hsc : spec_overlap_score "kenapa helm wajib dipakai" "kenapa helm wajib dipakai" = 1 := by
    simp only [spec_overlap_score, htok, hfil]
    norm_num
  have hb : (hukum_keywords.any (fun k =>
      contains_sub (norm_text "kenapa helm wajib dipakai") k)) = false := by decide
  have h2 : predict_intent_spec none [("kenapa helm wajib dipakai", "aturan_helm")] (1 / 4)
      "kenapa helm wajib dipakai" = "aturan_helm" := by
    simp only [predict_intent_spec, hb, Bool.false_eq_true, if_false, spec_best_aux, hsc]
    norm_num
  refine ⟨h1, h2, ?_⟩
  rw [h1, h2]
  decide

/-- Claim C3 (amended): the rule layer always wins — a question whose
normalized text contains a trigger phrase classifies butuh_pasal no
matter what the trained model would say; otherwise, with no model loaded
the default tips_umum is returned, and with a model loaded the model
prediction is returned with any model failure treated as no prediction
and hence the default; there is no nearest-example stage, and
classification is a total function, so it never raises. -/
theorem predict_intent_precedence :
    (∀ (model : Option (String → Option String)) (q : String),
      (hukum_keywords.any (fun k => contains_sub (norm_text q) k)) = true →
      predict_intent model q = "butuh_pasal") ∧
    (∀ q : String,
      (hukum_keywords.any (fun k => contains_sub (norm_text q) k)) = false →
      predict_intent none q = "tips_umum") ∧
    (∀ (f : String → Option String) (q : String),
      (hukum_keywords.any (fun k => contains_sub (norm_text q) k)) = false →
      predict_intent (some f) q = (f q).getD "tips_umum") := by
  refine ⟨?_, ?_, ?_⟩
  · intro model q h
    simp [predict_intent, h]
  · intro q h
    simp [predict_intent, h]
  · intro f q h
    simp only [predict_intent, h, Bool.false_eq_true, if_false]
    cases f q <;> simp [Option.getD]

/-- Witness for the intent precedence at concrete questions: the trigger
word denda forces butuh_pasal over a model predicting tips_umum, and a
trigger-free question with no model defaults to tips_umum. -/
theorem predict_intent_precedence_witness :
    predict_intent (some (fun _ => some "tips_umum")) "berapa denda tidak pakai helm" =
      "butuh_pasal" ∧
    predict_intent none "kenapa harus berhenti" = "tips_umum" := by
  have h := predict_intent_precedence
  exact ⟨h.1 (some (fun _ => some "tips_umum")) "berapa denda tidak pakai helm" (by decide),
    h.2.1 "kenapa harus berhenti" (by decide)⟩

/-- Claim C6: for both cosine implementations (main.py and
search_index.py), the self-similarity of a vector with a nonzero
component is exactly one, the similarity against a zero (or empty) vector
is exactly zero, and the function is symmetric. -/
theorem cosine_similarity_properties :
    (∀ v : List ℚ, (∃ x ∈ v, x ≠ 0) → cosine_similarity v v = 1) ∧
    (∀ v w : List ℚ, (∀ x ∈ w, x = 0) → cosine_similarity v w = 0) ∧
    (∀ a b : List ℚ, cosine_similarity a b = cosine_similarity b a) ∧
    (∀ v : List ℚ, (∃ x ∈ v, x ≠ 0) → SearchIndex.cosine_similarity v v = 1) ∧
    (∀ v w : List ℚ, (∀ x ∈ w, x = 0) → SearchIndex.cosine_similarity v w = 0) ∧
    (∀ a b : List ℚ, SearchIndex.cosine_similarity a b = SearchIndex.cosine_similarity b a) :=
  ⟨fun _ hv => cosine_self_eq_one hv,
    fun v _ hw => cosine_zero_right v hw,
    cosine_symm,
    fun _ hv => si_cosine_self_eq_one hv,
    fun v _ hw => si_cosine_zero_right v hw,
    si_cosine_symm⟩

/-- Witness for the cosine properties at concrete vectors. -/
theorem cosine_similarity_properties_witness :
    cosine_similarity [3, 4] [3, 4] = 1 ∧
    cosine_similarity [3, 4] [0, 0] = 0 ∧
    SearchIndex.cosine_similarity [3, 4] [3, 4] = 1 := by
  have h := cosine_similarity_properties
  exact ⟨h.1 [3, 4] (by decide), h.2.1 [3, 4] [0, 0] (by decide),
    h.2.2.2.1 [3, 4] (by decide)⟩

/-- Claim C10: the serving-path cosine similarity returns exactly zero
for every pair of vectors of different lengths and whenever either vector
is empty, rather than raising or scoring a truncated prefix, so a
mismatched query embedding always contributes a zero score. -/
theorem cosine_dimension_mismatch_zero :
    (∀ v w : List ℚ, v.length ≠ w.length → cosine_similarity v w = 0) ∧
    (∀ v w : List ℚ, (v.isEmpty || w.isEmpty) = true → cosine_similarity v w = 0) :=
  ⟨fun _ _ h => cosine_len_mismatch h, fun v w h => cosine_empty v w h⟩

/-- Witness for the dimension-mismatch behaviour at concrete vectors. -/
theorem cosine_dimension_mismatch_zero_witness :
    cosine_similarity [1] [1, 2] = 0 ∧ cosine_similarity [] [1] = 0 := by
  have h := cosine_dimension_mismatch_zero
  exact ⟨h.1 [1] [1, 2] (by decide), h.2 [] [1] (by decide)⟩

/-- Claim C4: an entry stored with a nonnegative TTL is retrievable
immediately after set; a get strictly after its expiry time is a miss,
and in general get only returns values whose stored expiry has not
passed; and a set on a cache at or above capacity with at least one entry
evicts exactly one existing entry — one with the smallest expiry
timestamp — before inserting the new entry. -/
theorem ttl_cache_contract (κ α : Type) [DecidableEq κ] :
    (∀ (c : TTLCache κ α) (now : ℚ) (k : κ) (v : α), 0 ≤ c.ttl →
      ((c.set now k v).get now k).1 = some v) ∧
    (∀ (c : TTLCache κ α) (s now : ℚ) (k : κ) (v : α), s + c.ttl < now →
      ((c.set s k v).get now k).1 = none) ∧
    (∀ (c : TTLCache κ α) (now : ℚ) (k : κ) (v : α), (c.get now k).1 = some v →
      ∃ exp, dict_get k c.data = some (exp, v) ∧ now ≤ exp) ∧
    (∀ (c : TTLCache κ α) (now : ℚ) (key : κ) (v : α),
      c.max_items ≤ c.data.length → c.data ≠ [] →
      ∃ k0 e0 v0, (k0, e0, v0) ∈ c.data ∧ (∀ p ∈ c.data, e0 ≤ p.2.1) ∧
        (c.set now key v).data =
          dict_assign key (now + c.ttl, v) (dict_pop k0 c.data)) :=
  ⟨ttl_get_after_set, ttl_get_expired,
    fun c now k _ h => ttl_get_not_expired c now k h, ttl_set_evicts_oldest⟩

/-- Witness for the cache contract on a concrete cache at capacity. -/
theorem ttl_cache_contract_witness :
    ((ex_ttl_cache.set 0 "c" 7).get 0 "c").1 = some 7 ∧
    ((ex_ttl_cache.set 0 "c" 7).get 11 "c").1 = none ∧
    (∃ k0 e0 v0, (k0, e0, v0) ∈ ex_ttl_cache.data ∧
      (∀ p ∈ ex_ttl_cache.data, e0 ≤ p.2.1) ∧
      (ex_ttl_cache.set 0 "c" 7).data =
        dict_assign "c" ((0 : ℚ) + ex_ttl_cache.ttl, 7) (dict_pop k0 ex_ttl_cache.data)) := by
  have h := ttl_cache_contract String ℕ
  exact ⟨h.1 ex_ttl_cache 0 "c" 7 (by norm_num [ex_ttl_cache]),
    h.2.1 ex_ttl_cache 0 11 "c" 7 (by norm_num [ex_ttl_cache]),
    h.2.2.2 ex_ttl_cache 0 "c" 7 (by norm_num [ex_ttl_cache]) (by simp [ex_ttl_cache])⟩

/-- Claim C5, as stated, is false: a hard (neither quota nor
not-found-classified) error on the first model does not abort the whole
attempt chain — it only abandons that model's remaining variants, and
generation succeeds on the next fallback model instead of propagating the
error. -/
theorem generate_answer_break_counterexample :
    is_quota_error "boom" = false ∧ is_not_found_model_error "boom" = false ∧
    gen_call_ex "m1" = Except.error "boom" ∧
    generate_answer true ["m1", "m2"] gen_call_ex = Except.ok ("jawaban", "m2") ∧
    generate_answer true ["m1", "m2"] gen_call_ex ≠ Except.error "boom" := by
  have h4 : generate_answer true ["m1", "m2"] gen_call_ex = Except.ok ("jawaban", "m2") := by
    rfl
  refine ⟨rfl, rfl, rfl, h4, ?_⟩
  rw [h4]
  intro h
  exact Except.noConfusion h

theorem model_candidates_head (m : String) (h1 : trim_str m = m) (h2 : m ≠ "") :
    ∃ tail, model_candidates m = m :: tail := by
  simp only [model_candidates, h1, if_neg h2]
  by_cases he : ends_with m "-latest" = true
  · rw [if_pos he]
    exact ⟨[], rfl⟩
  · rw [if_neg he]
    exact ⟨[m ++ "-latest"], rfl⟩

theorem model_candidates_pair (m : String) (h1 : trim_str m = m) (h2 : m ≠ "")
    (he : ends_with m "-latest" = false) :
    model_candidates m = [m, m ++ "-latest"] := by
  simp only [model_candidates, h1, if_neg h2]
  rw [if_neg (by simp [he])]

theorem try_candidates_first_ok (call : String → Except String (Option String))
    (m : String) (tail : List String) (le : Option String) (t : String)
    (hc : call m = Except.ok (some t)) (ht : trim_str t ≠ "") :
    try_candidates call (m :: tail) le = Sum.inr (trim_str t, m) := by
  unfold try_candidates
  rw [hc]
  simp [ht]

theorem try_candidates_hard_error (call : String → Except String (Option String))
    (m : String) (tail : List String) (le : Option String) (e : String)
    (hc : call m = Except.error e) (hn : is_not_found_model_error e = false)
    (hq : is_quota_error e = false) :
    try_candidates call (m :: tail) le = Sum.inl (some e) := by
  unfold try_candidates
  rw [hc]
  simp [hn, hq]

theorem try_candidates_soft_error (call : String → Except String (Option String))
    (m : String) (tail : List String) (le : Option String) (e : String)
    (hc : call m = Except.error e)
    (hs : is_not_found_model_error e = true ∨ is_quota_error e = true) :
    try_candidates call (m :: tail) le = try_candidates call tail (some e) := by
  simp only [try_candidates, hc]
  rcases hs with h | h
  · simp [h]
  · by_cases hn : is_not_found_model_error e = true <;> simp [h, hn]

/-- Claim C5 (amended): generation walks the primary model then each
fallback, each with its -latest variant, stopping at the first candidate
that returns non-empty stripped text; a not-found or quota/rate error on
a candidate moves to the next candidate; any other error abandons only
the remaining variants of the current base model — the chain continues
with the next fallback base model — and the last recorded error
propagates only when every base model is exhausted without non-empty
text. -/
theorem generate_answer_chain_contract :
    (∀ (call : String → Except String (Option String)) (m : String)
      (rest : List String) (t : String), trim_str m = m → m ≠ "" →
      call m = Except.ok (some t) → trim_str t ≠ "" →
      generate_answer true (m :: rest) call = Except.ok (trim_str t, m)) ∧
    (∀ (call : String → Except String (Option String)) (m e t : String)
      (rest : List String), trim_str m = m → m ≠ "" →
      ends_with m "-latest" = false → call m = Except.error e →
      (is_not_found_model_error e = true ∨ is_quota_error e = true) →
      call (m ++ "-latest") = Except.ok (some t) → trim_str t ≠ "" →
      generate_answer true (m :: rest) call = Except.ok (trim_str t, m ++ "-latest")) ∧
    (∀ (call : String → Except String (Option String)) (m1 m2 e t : String)
      (rest : List String), trim_str m1 = m1 → m1 ≠ "" → trim_str m2 = m2 → m2 ≠ "" →
      call m1 = Except.error e → is_not_found_model_error e = false →
      is_quota_error e = false → call m2 = Except.ok (some t) → trim_str t ≠ "" →
      generate_answer true (m1 :: m2 :: rest) call = Except.ok (trim_str t, m2)) ∧
    (∀ (call : String → Except String (Option String)) (m1 e : String),
      trim_str m1 = m1 → m1 ≠ "" → call m1 = Except.error e →
      is_not_found_model_error e = false → is_quota_error e = false →
      generate_answer true [m1] call = Except.error e) := by
  refine ⟨?_, ?_, ?_, ?_⟩
  · intro call m rest t h1 h2 hc ht
    obtain ⟨tail, hm⟩ := model_candidates_head m h1 h2
    simp only [generate_answer, Bool.not_true, Bool.false_eq_true, if_false, try_models,
      hm, try_candidates_first_ok call m tail none t hc ht]
  · intro call m e t rest h1 h2 he hc hs hl ht
    have hm := model_candidates_pair m h1 h2 he
    simp only [generate_answer, Bool.not_true, Bool.false_eq_true, if_false, try_models, hm,
      try_candidates_soft_error call m [m ++ "-latest"] none e hc hs,
      try_candidates_first_ok call (m ++ "-latest") [] (some e) t hl ht]
  · intro call m1 m2 e t rest h1 h2 h3 h4 hc hn hq hl ht
    obtain ⟨tail1, hm1⟩ := model_candidates_head m1 h1 h2
    obtain ⟨tail2, hm2⟩ := model_candidates_head m2 h3 h4
    simp only [generate_answer, Bool.not_true, Bool.false_eq_true, if_false, try_models,
      hm1, try_candidates_hard_error call m1 tail1 none e hc hn hq,
      hm2, try_candidates_first_ok call m2 tail2 (some e) t hl ht]
  · intro call m1 e h1 h2 hc hn hq
    obtain ⟨tail1, hm1⟩ := model_candidates_head m1 h1 h2
    simp only [generate_answer, Bool.not_true, Bool.false_eq_true, if_false, try_models,
      hm1, try_candidates_hard_error call m1 tail1 none e hc hn hq, Option.getD]

/-- Witness for the generation chain contract: a first-candidate success
and an exhausted chain propagating the hard error. -/
theorem generate_answer_chain_contract_witness :
    generate_answer true ["mx"] (fun _ => Except.ok (some "halo")) =
      Except.ok (trim_str "halo", "mx") ∧
    generate_answer true ["m1"] gen_call_ex = Except.error "boom" := by
  have h := generate_answer_chain_contract
  exact ⟨h.1 (fun _ => Except.ok (some "halo")) "mx" [] "halo" rfl (by decide) rfl (by decide),
    h.2.2.2 gen_call_ex "m1" "boom" rfl (by decide) rfl (by decide) (by decide)⟩

theorem rate_limit_step_count_le (N : ℕ) (st : Option (ℚ × ℕ)) (now : ℚ) (hN : 1 ≤ N)
    (hst : ∀ p, st = some p → p.2 ≤ N) : (rate_limit_step N st now).2.2 ≤ N := by
  unfold rate_limit_step
  rcases st with _ | ⟨start, count⟩
  · simp only [Option.getD]
    split
    · exact hN
    · split
      · exact Nat.zero_le N
      · exact hN
  · have hc : count ≤ N := hst (start, count) rfl
    simp only [Option.getD]
    split
    · exact hN
    · split
      · exact hc
      · next h2 =>
        show count + 1 ≤ N
        omega

theorem rate_limit_states_le (N : ℕ) (hN : 1 ≤ N) :
    ∀ (times : List ℚ) (st0 : Option (ℚ × ℕ)), (∀ p, st0 = some p → p.2 ≤ N) →
      ∀ q ∈ rate_limit_states N st0 times, q.2 ≤ N := by
  intro times
  induction times with
  | nil =>
    intro st0 _ q hq
    simp [rate_limit_states] at hq
  | cons t ts ih =>
    intro st0 h0 q hq
    simp only [rate_limit_states] at hq
    rcases List.mem_cons.mp hq with rfl | hq
    · exact rate_limit_step_count_le N st0 t hN h0
    · refine ih (some (rate_limit_step N st0 t).2) ?_ q hq
      intro p hp
      have hle := rate_limit_step_count_le N st0 t hN h0
      rw [Option.some.inj hp] at hle
      exact hle

theorem rate_limit_step_deny_iff (N : ℕ) (start : ℚ) (count : ℕ) (now : ℚ) :
    (rate_limit_step N (some (start, count)) now).1 = false ↔
      now - start < 60 ∧ N ≤ count := by
  unfold rate_limit_step
  simp only [Option.getD]
  by_cases h1 : 60 ≤ now - start
  · rw [if_pos h1]
    exact iff_of_false (by simp) (fun hh => absurd hh.1 (not_lt.mpr h1))
  · rw [if_neg h1]
    by_cases h2 : N ≤ count
    · rw [if_pos h2]
      exact iff_of_true rfl ⟨not_le.mp h1, h2⟩
    · rw [if_neg h2]
      exact iff_of_false (by simp) (fun hh => h2 hh.2)

theorem rate_limit_step_deny_state (N : ℕ) (start : ℚ) (count : ℕ) (now : ℚ)
    (h : (rate_limit_step N (some (start, count)) now).1 = false) :
    (rate_limit_step N (some (start, count)) now).2 = (start, count) := by
  unfold rate_limit_step at h ⊢
  simp only [Option.getD] at h ⊢
  by_cases h1 : 60 ≤ now - start
  · rw [if_pos h1] at h
    simp at h
  · rw [if_neg h1] at h ⊢
    by_cases h2 : N ≤ count
    · rw [if_pos h2]
    · rw [if_neg h2] at h
      simp at h

theorem chat_impl_rejects (env : ChatEnv)
    (h : (rate_limit_step env.max_requests_per_minute env.rate_state env.now).1 = false) :
    chat_impl env = Except.error 429 := by
  simp [chat_impl, h]

theorem rl_s1 : rate_limit_step 2 none 0 = (true, 0, 1) := by
  simp only [rate_limit_step, Option.getD]
  rw [if_neg (by norm_num), if_neg (by norm_num)]

theorem rl_s2 : rate_limit_step 2 (some (0, 1)) 59 = (true, 0, 2) := by
  simp only [rate_limit_step, Option.getD]
  rw [if_neg (by norm_num), if_neg (by norm_num)]

theorem rl_s3 : rate_limit_step 2 (some (0, 2)) 60 = (true, 60, 1) := by
  simp only [rate_limit_step, Option.getD]
  rw [if_pos (by norm_num)]

theorem rl_s4 : rate_limit_step 2 (some (60, 1)) 60 = (true, 60, 2) := by
  simp only [rate_limit_step, Option.getD]
  rw [if_neg (by norm_num), if_neg (by norm_num)]

/-- Counterexample to the rolling-window reading of the limiter: with a
budget of two per minute, requests at times 0, 59, 60 and 60 are all
accepted, so the rolling 60-second window starting at time 59 holds
three accepted requests.  The source limiter resets its counter as soon
as 60 seconds have passed since the stored window start — a fixed
window, not a rolling one. -/
theorem rate_limit_rolling_counterexample :
    2 < accepted_in_window (rate_limit_run 2 none [0, 59, 60, 60]) 59 := by
  have hrun : rate_limit_run 2 none [0, 59, 60, 60] =
      [(0, true), (59, true), (60, true), (60, true)] := by
    simp only [rate_limit_run, rl_s1, rl_s2, rl_s3, rl_s4]
  rw [hrun]
  simp only [accepted_in_window, List.filter]
  have d1 : (decide ((59:ℚ) ≤ 0) && decide ((0:ℚ) < 59 + 60)) = false := by
    rw [decide_eq_false (by norm_num : ¬ (59:ℚ) ≤ 0)]
    rfl
  have d2 : (decide ((59:ℚ) ≤ 59) && decide ((59:ℚ) < 59 + 60)) = true := by
    rw [decide_eq_true (by norm_num : (59:ℚ) ≤ 59),
      decide_eq_true (by norm_num : (59:ℚ) < 59 + 60)]
    rfl
  have d3 : (decide ((59:ℚ) ≤ 60) && decide ((60:ℚ) < 59 + 60)) = true := by
    rw [decide_eq_true (by norm_num : (59:ℚ) ≤ 60),
      decide_eq_true (by norm_num : (60:ℚ) < 59 + 60)]
    rfl
  simp only [Bool.true_and, d1, d2, d3, List.length]
  norm_num

/-- Claim C7 (amended): the limiter keeps, per client, a fixed
60-second window — the stored pair is the window start and the accepted
count.  A request at least 60 seconds after the window start opens a
fresh window with count one; inside the window a request is denied
exactly when the count has reached the per-minute maximum, denial
leaves the stored state unchanged, and the accepted count never
exceeds the maximum; a denied client receives HTTP 429 from _chat_impl
before any retrieval or generation work. -/
theorem rate_limit_fixed_window_contract (N : ℕ) (hN : 1 ≤ N) :
    (∀ (st : Option (ℚ × ℕ)) (now : ℚ), (∀ p, st = some p → p.2 ≤ N) →
      (rate_limit_step N st now).2.2 ≤ N) ∧
    (∀ (start : ℚ) (count : ℕ) (now : ℚ), 60 ≤ now - start →
      rate_limit_step N (some (start, count)) now = (true, now, 1)) ∧
    (∀ (start : ℚ) (count : ℕ) (now : ℚ),
      (rate_limit_step N (some (start, count)) now).1 = false ↔
        now - start < 60 ∧ N ≤ count) ∧
    (∀ (start : ℚ) (count : ℕ) (now : ℚ),
      (rate_limit_step N (some (start, count)) now).1 = false →
      (rate_limit_step N (some (start, count)) now).2 = (start, count)) ∧
    (∀ env : ChatEnv,
      (rate_limit_step env.max_requests_per_minute env.rate_state env.now).1 = false →
      chat_impl env = Except.error 429) := by
  refine ⟨?_, ?_, ?_, ?_, ?_⟩
  · intro st now h0
    exact rate_limit_step_count_le N st now hN h0
  · intro start count now h
    simp only [rate_limit_step, Option.getD]
    rw [if_pos h]
  · intro start count now
    exact rate_limit_step_deny_iff N start count now
  · intro start count now
    exact rate_limit_step_deny_state N start count now
  · intro env
    exact chat_impl_rejects env

/-- Witness for the fixed-window contract: a client with sixty accepted
requests in the current window is denied and _chat_impl answers 429. -/
theorem rate_limit_fixed_window_contract_witness :
    (rate_limit_step 60 (some (0, 60)) 30).1 = false ∧
    chat_impl env_rate_limited = Except.error 429 := by
  have h := rate_limit_fixed_window_contract 60 (by norm_num)
  have hd : (rate_limit_step 60 (some (0, 60)) 30).1 = false :=
    (h.2.2.1 0 60 30).mpr ⟨by norm_num, le_refl 60⟩
  refine ⟨hd, h.2.2.2.2 env_rate_limited ?_⟩
  show (rate_limit_step 60 (some (0, 60)) 30).1 = false
  exact hd

theorem resume_entries_eq (ids : List String) (embed : String → List ℚ)
    (arts : List Article) :
    resume_entries ids embed arts =
      ((arts.filter (resume_keeps ids)).map (resume_doc_of embed),
        (arts.filter (resume_keeps ids)).flatMap
          (fun a => [BuildEvent.embed_call a.id, BuildEvent.sleep])) := by
  induction arts with
  | nil => rfl
  | cons a rest ih =>
    by_cases h1 : ids.contains (toString a.id) = true
    · have h1m : toString a.id ∈ ids := by simpa using h1
      have hk : resume_keeps ids a = false := by simp [resume_keeps, h1m]
      simp only [resume_entries, if_pos h1, ih, List.filter_cons, hk]
      simp
    · have h1m : toString a.id ∉ ids := by simpa using h1
      by_cases h2 : article_isi a = ""
      · have hk : resume_keeps ids a = false := by simp [resume_keeps, h2]
        simp only [resume_entries, if_neg h1, if_pos h2, ih, List.filter_cons, hk]
        simp
      · have hk : resume_keeps ids a = true := by simp [resume_keeps, h1m, h2]
        simp only [resume_entries, if_neg h1, if_neg h2, ih, List.filter_cons, hk,
          if_true, List.map_cons, List.flatMap_cons]
        simp [resume_doc_of]

/-- Claim C8: the resumable build appends to the loaded index exactly
one entry per active article that is not already indexed by id and has
non-empty body, in source order; its event trace is one embedding call
followed by one sleep per appended entry, and no embedding call ever
carries an id already present in the loaded index — already-indexed
documents are neither re-embedded nor duplicated. -/
theorem build_resume_contract (existing : List Doc) (arts : List Article)
    (embed : String → List ℚ) :
    build_index_main existing arts embed =
      (existing ++
        ((arts.filter (fun a => a.status == "berlaku")).filter
            (resume_keeps (existing.map Doc.id))).map (resume_doc_of embed),
        ((arts.filter (fun a => a.status == "berlaku")).filter
            (resume_keeps (existing.map Doc.id))).flatMap
          (fun a => [BuildEvent.embed_call a.id, BuildEvent.sleep])) ∧
    (∀ i : ℕ, (existing.map Doc.id).contains (toString i) = true →
      BuildEvent.embed_call i ∉ (build_index_main existing arts embed).2) := by
  have he := resume_entries_eq (existing.map Doc.id) embed
    (arts.filter (fun a => a.status == "berlaku"))
  constructor
  · simp only [build_index_main, he]
  · intro i hi hmem
    simp only [build_index_main, he] at hmem
    rcases List.mem_flatMap.mp hmem with ⟨a, ha, hin⟩
    have hk : resume_keeps (existing.map Doc.id) a = true := List.of_mem_filter ha
    simp only [resume_keeps, Bool.and_eq_true, Bool.not_eq_true'] at hk
    simp only [List.mem_cons, List.mem_singleton] at hin
    rcases hin with h | h
    · have hid : i = a.id := by
        injection h
      rw [hid] at hi
      rw [hk.1] at hi
      exact Bool.false_ne_true hi
    · simp at h

/-- Witness for the resumable-build contract: a persisted index holding
ids one and two combined with a source offering articles one, two and
three yields exactly ids one, two and three, the only provider events
are one embedding call for article three and one sleep, and no
embedding call for the already-indexed article one occurs. -/
theorem build_resume_contract_witness :
    (build_index_main [exdoc1, exdoc2] [artA, artB, artC] embed_total_one).1.map Doc.id =
      ["1", "2", "3"] ∧
    (build_index_main [exdoc1, exdoc2] [artA, artB, artC] embed_total_one).2 =
      [BuildEvent.embed_call 3, BuildEvent.sleep] ∧
    (([exdoc1, exdoc2].map Doc.id).contains (toString 1) = true ∧
      BuildEvent.embed_call 1 ∉
        (build_index_main [exdoc1, exdoc2] [artA, artB, artC] embed_total_one).2) := by
  refine ⟨by decide, by decide, by decide, ?_⟩
  exact (build_resume_contract [exdoc1, exdoc2] [artA, artB, artC] embed_total_one).2
    1 (by decide)

theorem rebuild_entries_eq (embed : String → Except String (List ℚ))
    (arts : List Article) :
    rebuild_entries embed arts =
      (arts.filter (rebuild_keeps embed)).map (rebuild_doc_of embed) := by
  induction arts with
  | nil => rfl
  | cons a rest ih =>
    by_cases h1 : article_isi a = ""
    · have hk : rebuild_keeps embed a = false := by simp [rebuild_keeps, h1]
      simp only [rebuild_entries, if_pos h1, ih, List.filter_cons, hk]
      simp
    · by_cases h2 : rebuild_vec embed a = []
      · have hk : rebuild_keeps embed a = false := by
          simp [rebuild_keeps, h2, List.isEmpty_iff]
        simp only [rebuild_entries, if_neg h1, if_pos h2, ih, List.filter_cons, hk]
        simp
      · have hk : rebuild_keeps embed a = true := by
          simp [rebuild_keeps, h1, h2, List.isEmpty_iff]
        simp only [rebuild_entries, if_neg h1, if_neg h2, ih, List.filter_cons, hk,
          if_true, List.map_cons]
        simp [rebuild_doc_of]

/-- Counterexample to the de-duplication claim: two database rows with
an identical (law, article, heading, legal text) tuple but distinct
ids are both retained by rebuild_index_from_db — the rebuilt index
holds two entries, not one. -/
theorem rebuild_dedup_counterexample :
    (artA.uu, artA.pasal, artA.title, artA.legal_text) =
      (artB.uu, artB.pasal, artB.title, artB.legal_text) ∧
    (rebuild_index_from_db [artA, artB] embed_one).length = 2 := by
  constructor
  · rfl
  · decide

/-- Claim C9 (amended): no de-duplication of any kind is applied by
rebuild_index_from_db — the rebuilt index is exactly one entry per
active article with non-empty body and non-empty embedding vector, in
ascending id order, so rows with identical (law, article, heading,
legal text) tuples each keep their own entry. -/
theorem rebuild_no_dedup_contract (arts : List Article)
    (embed : String → Except String (List ℚ)) :
    rebuild_index_from_db arts embed =
      ((List.insertionSort (fun a b : Article => a.id ≤ b.id)
          (arts.filter (fun a => a.status == "berlaku"))).filter
        (rebuild_keeps embed)).map (rebuild_doc_of embed) ∧
    (rebuild_index_from_db arts embed).length =
      ((arts.filter (fun a => a.status == "berlaku")).filter
        (rebuild_keeps embed)).length := by
  have he := rebuild_entries_eq embed
    (List.insertionSort (fun a b : Article => a.id ≤ b.id)
      (arts.filter (fun a => a.status == "berlaku")))
  constructor
  · simp only [rebuild_index_from_db, he]
  · have hp : List.Perm
        (List.insertionSort (fun a b : Article => a.id ≤ b.id)
          (arts.filter (fun a => a.status == "berlaku")))
        (arts.filter (fun a => a.status == "berlaku")) :=
      List.perm_insertionSort _ _
    simp only [rebuild_index_from_db, he, List.length_map]
    exact (hp.filter (rebuild_keeps embed)).length_eq

end HukumAI
